import Mathlib

/-!
A shallow embedding of the expression compiler in
`src/scripting/codegeneration/codegen.cpp` (the resolution pass with its
constant folding, and the emission pass with its register allocation and
instruction selection), together with theorems settling the specification
claims about it.

Conventions:
* machine integers are modelled as `Int` (the folded values in the claims
  stay far from 32-bit overflow), doubles as `Rat` (exact for the
  zero-tests and truncations the claims are about);
* `MSG_ERROR` followed by `delete this; return nullptr` is modelled as a
  failing `ResM` computation carrying the message, `MSG_WARNING` /
  `MSG_OPTERROR` as messages on a successful computation;
* declarations whose C++ source lives in headers that are not part of the
  repository snapshot (`codegen.h`, `vm.h`, `vmbuilder.cpp`) are marked
  `Modelled from the spec:` in their doc comments.
-/

/-- Register classes, with the numbering of the VM header: `REGT_INT = 0`. -/
def REGT_INT : Nat := 0

/-- `REGT_FLOAT = 1`. -/
def REGT_FLOAT : Nat := 1

/-- `REGT_STRING = 2`. -/
def REGT_STRING : Nat := 2

/-- `REGT_POINTER = 3`. -/
def REGT_POINTER : Nat := 3

/-- `REGT_TYPE` is the mask covering the four register classes
(`ExpEmit::Free` releases a register only when `RegType <= REGT_TYPE`). -/
def REGT_TYPE : Nat := 3

/-- `REGT_NIL` marks a location descriptor that carries no value. -/
def REGT_NIL : Nat := 128

/-- The subset of the external type system's types that the embedded
claims touch: `TypeBool`, `TypeSInt32`, `TypeUInt32`, `TypeFloat64`,
`TypeName`, `TypeVoid`. -/
inductive PType where
  | tBool
  | tSInt32
  | tUInt32
  | tFloat64
  | tName
  | tVoid

deriving instance DecidableEq, Repr for PType

/-- `PType::GetRegType`: booleans, integers and names are integer-class,
doubles are float-class; `TypeVoid` has no register class. -/
def PType.regType : PType → Nat
  | .tBool => REGT_INT
  | .tSInt32 => REGT_INT
  | .tUInt32 => REGT_INT
  | .tName => REGT_INT
  | .tFloat64 => REGT_FLOAT
  | .tVoid => REGT_NIL

/-- Truncation toward zero, the conversion C++ applies for `int(double)`. -/
def truncQ (q : Rat) : Int := if 0 ≤ q then ⌊q⌋ else ⌈q⌉

/-- Modelled from the spec: `ExpVal`, the tagged literal a resolved node may
carry, is declared in the header `codegen.h` which is not in the repository
snapshot.  Per spec section 3 it is a tagged value (integer / float / ...);
`ival` holds the integer payload (`Int` member), `fval` the double payload
(`Float` member). -/
structure ExpVal where
  typ : PType
  ival : Int := 0
  fval : Rat := 0

deriving instance DecidableEq, Repr for ExpVal

/-- Modelled from the spec: `ExpVal::GetInt` (header not in the snapshot);
spec 4.2: "float→int truncates". -/
def ExpVal.GetInt (v : ExpVal) : Int :=
  if v.typ.regType = REGT_INT then v.ival
  else if v.typ.regType = REGT_FLOAT then truncQ v.fval
  else 0

/-- Modelled from the spec: `ExpVal::GetFloat` (header not in the snapshot). -/
def ExpVal.GetFloat (v : ExpVal) : Rat :=
  if v.typ.regType = REGT_INT then (v.ival : Rat)
  else if v.typ.regType = REGT_FLOAT then v.fval
  else 0

/-- Modelled from the spec: `ExpVal::GetBool` (header not in the snapshot);
spec 4.2: the boolean view of a value tests it against the zero value of its
register class. -/
def ExpVal.GetBool (v : ExpVal) : Bool :=
  if v.typ.regType = REGT_INT then v.ival ≠ 0
  else if v.typ.regType = REGT_FLOAT then v.fval ≠ 0
  else false

/-- The `FxConstant(int, pos)` constructor: type `TypeSInt32`. -/
def intVal (i : Int) : ExpVal := { typ := .tSInt32, ival := i }

/-- The `FxConstant(double, pos)` constructor: type `TypeFloat64`. -/
def floatVal (q : Rat) : ExpVal := { typ := .tFloat64, fval := q }

/-- The `FxConstant(bool, pos)` constructor: type `TypeBool`, payload 0/1. -/
def boolVal (b : Bool) : ExpVal := { typ := .tBool, ival := if b then 1 else 0 }

/-- A name constant (`TypeName`; names are interned as integers). -/
def nameVal (n : Int) : ExpVal := { typ := .tName, ival := n }

/-- Severity levels of `FScriptPosition::Message`. -/
inductive MsgLevel where
  | error
  | warning
  | optError

deriving instance DecidableEq, Repr for MsgLevel

/-- One reported message. -/
structure Msg where
  level : MsgLevel
  text : String

deriving instance DecidableEq, Repr for Msg

/-- Result of a resolution step: the messages it reported, and the
resolved node — `none` models `return nullptr` after a fatal error. -/
abbrev ResM (α : Type) : Type := List Msg × Option α

instance : Monad ResM where
  pure a := ([], some a)
  bind x f :=
    match x with
    | (ms, none) => (ms, none)
    | (ms, some a) =>
      match f a with
      | (ms2, r) => (ms ++ ms2, r)

/-- `ScriptPosition.Message(MSG_ERROR, ...)` followed by
`delete this; return nullptr`. -/
def msgError {α : Type} (s : String) : ResM α := ([⟨.error, s⟩], none)

/-- `ScriptPosition.Message(MSG_WARNING, ...)`: compilation continues. -/
def msgWarning (s : String) : ResM Unit := ([⟨.warning, s⟩], some ())

/-- `ScriptPosition.Message(MSG_OPTERROR, ...)`: the lenient-fallback
channel; compilation continues. -/
def msgOptError (s : String) : ResM Unit := ([⟨.optError, s⟩], some ())

/-- `&&` versus `||` in `FxBinaryLogical` (`TK_AndAnd` / `TK_OrOr`). -/
inductive LogicalOp where
  | andAnd
  | orOr

deriving instance DecidableEq, Repr for LogicalOp

/-- The `FxAddSub` operator field (`'+'` or `'-'`). -/
inductive AddOp where
  | add
  | sub

deriving instance DecidableEq, Repr for AddOp

/-- The `FxMulDiv` operator field (`'*'`, `'/'` or `'%'`). -/
inductive MulOp where
  | mul
  | div
  | mod

deriving instance DecidableEq, Repr for MulOp

/-- The `FxCompareEq` operator field (`TK_Eq`, `TK_Neq`, `TK_ApproxEq`). -/
inductive EqOp where
  | eq
  | neq
  | approxEq

deriving instance DecidableEq, Repr for EqOp

/-- `NAME_Min` / `NAME_Max`, the `Type` field of `FxMinMax`. -/
inductive MinMaxKind where
  | nameMin
  | nameMax

deriving instance DecidableEq, Repr for MinMaxKind

/-- The expression nodes the claims touch.  `valueType` fields embed the
mutable `ValueType` member of the C++ nodes where it is not determined by
the node kind (the parser builds those nodes with `tVoid`; resolution
rewrites the node with the unified type). -/
inductive FxExpr where
  | fxConstant (v : ExpVal)
  | fxLocalVariable (t : PType) (regnum : Nat)
  | fxBoolCast (basex : FxExpr)
  | fxIntCast (basex : FxExpr) (noWarn : Bool)
  | fxFloatCast (basex : FxExpr)
  | fxBinaryLogical (op : LogicalOp) (left right : FxExpr)
  | fxAddSub (op : AddOp) (valueType : PType) (left right : FxExpr)
  | fxMulDiv (op : MulOp) (valueType : PType) (left right : FxExpr)
  | fxLtGtEq (valueType : PType) (left right : FxExpr)
  | fxMinMax (kind : MinMaxKind) (valueType : PType) (choices : List FxExpr)

mutual

/-- Structural (syntactic) equality of expression trees. -/
def FxExpr.beq : FxExpr → FxExpr → Bool
  | .fxConstant v, .fxConstant w => v = w
  | .fxLocalVariable t1 r1, .fxLocalVariable t2 r2 => t1 = t2 ∧ r1 = r2
  | .fxBoolCast a, .fxBoolCast b => FxExpr.beq a b
  | .fxIntCast a n1, .fxIntCast b n2 => n1 = n2 && FxExpr.beq a b
  | .fxFloatCast a, .fxFloatCast b => FxExpr.beq a b
  | .fxBinaryLogical o1 l1 r1, .fxBinaryLogical o2 l2 r2 =>
    o1 = o2 && FxExpr.beq l1 l2 && FxExpr.beq r1 r2
  | .fxAddSub o1 t1 l1 r1, .fxAddSub o2 t2 l2 r2 =>
    (o1 = o2 ∧ t1 = t2) && FxExpr.beq l1 l2 && FxExpr.beq r1 r2
  | .fxMulDiv o1 t1 l1 r1, .fxMulDiv o2 t2 l2 r2 =>
    (o1 = o2 ∧ t1 = t2) && FxExpr.beq l1 l2 && FxExpr.beq r1 r2
  | .fxLtGtEq t1 l1 r1, .fxLtGtEq t2 l2 r2 =>
    (t1 = t2 : Bool) && FxExpr.beq l1 l2 && FxExpr.beq r1 r2
  | .fxMinMax k1 t1 cs1, .fxMinMax k2 t2 cs2 =>
    (k1 = k2 ∧ t1 = t2) && FxExpr.beqList cs1 cs2
  | _, _ => false

/-- Elementwise `FxExpr.beq` on lists. -/
def FxExpr.beqList : List FxExpr → List FxExpr → Bool
  | [], [] => true
  | a :: as, b :: bs => FxExpr.beq a b && FxExpr.beqList as bs
  | _, _ => false

end

/-- The `ValueType` of a node as resolution leaves it: fixed by the node
kind for casts (`FxBoolCast` et al. set it in their constructors), carried
explicitly for the binary nodes and `FxMinMax`. -/
def FxExpr.valueType : FxExpr → PType
  | .fxConstant v => v.typ
  | .fxLocalVariable t _ => t
  | .fxBoolCast _ => .tBool
  | .fxIntCast _ _ => .tSInt32
  | .fxFloatCast _ => .tFloat64
  | .fxBinaryLogical _ _ _ => .tBool
  | .fxAddSub _ vt _ _ => vt
  | .fxMulDiv _ vt _ _ => vt
  | .fxLtGtEq vt _ _ => vt
  | .fxMinMax _ vt _ => vt

/-- `FxExpression::isConstant`: only `FxConstant` overrides it to true. -/
def FxExpr.isConstant : FxExpr → Bool
  | .fxConstant _ => true
  | _ => false

/-- `FxConstant::GetValue` (only ever called behind an `isConstant` check;
the fallback value is never used). -/
def FxExpr.getValue : FxExpr → ExpVal
  | .fxConstant v => v
  | _ => { typ := .tVoid }

/-- Modelled from the spec: `FxExpression::IsNumeric` is declared in the
missing header `codegen.h`; per spec 4.2/4.3 a name is not numeric and
numeric means integer- or float-class. -/
def PType.isNumeric (t : PType) : Bool :=
  t ≠ .tName && (t.regType = REGT_INT || t.regType = REGT_FLOAT)

/-- `IsNumeric()` on a node checks its `ValueType`. -/
def FxExpr.isNumeric (e : FxExpr) : Bool := e.valueType.isNumeric

/-- The `ValueType` unification of `FxBinary::ResolveLR`
(codegen.cpp:1993-2025), restricted to the non-pointer types modelled
here: both-boolean → boolean, both-name → name, both-numeric → `TypeSInt32`
when both operands are integer-class else `TypeFloat64`, anything else
`TypeVoid`. -/
def resolveLRType (l r : FxExpr) : PType :=
  if l.valueType = .tBool ∧ r.valueType = .tBool then .tBool
  else if l.valueType = .tName ∧ r.valueType = .tName then .tName
  else if l.isNumeric ∧ r.isNumeric then
    (if l.valueType.regType = REGT_INT ∧ r.valueType.regType = REGT_INT then
      .tSInt32
    else .tFloat64)
  else .tVoid

/-- `RESOLVE(left); RESOLVE(right); if (!left || !right) { delete this;
return false; }` — both children are resolved before the null check. -/
def resolve2 (x y : ResM FxExpr) : ResM (FxExpr × FxExpr) :=
  match x, y with
  | (ms1, some a), (ms2, some b) => (ms1 ++ ms2, some (a, b))
  | (ms1, _), (ms2, _) => (ms1 ++ ms2, none)

/-- Body of `FxBoolCast::Resolve` (codegen.cpp:461-489) after `basex` has
been resolved. -/
def fxBoolCastResolvePost (basex : FxExpr) : ResM FxExpr :=
  if basex.valueType = .tBool then pure basex
  else if basex.valueType.regType = REGT_INT ∨ basex.valueType.regType = REGT_FLOAT
      ∨ basex.valueType.regType = REGT_POINTER then
    if basex.isConstant then pure (.fxConstant (boolVal basex.getValue.GetBool))
    else pure (.fxBoolCast basex)
  else msgError "Numeric type expected"

/-- Body of `FxIntCast::Resolve` (codegen.cpp:560-609) after `basex` has
been resolved. -/
def fxIntCastResolvePost (noWarn : Bool) (basex : FxExpr) : ResM FxExpr :=
  if basex.valueType.regType = REGT_INT then
    if basex.valueType ≠ .tName then pure basex
    else do
      -- lenient fallback: name where a number is expected becomes 0
      msgOptError "Numeric type expected, got a name"
      pure (.fxConstant (intVal 0))
  else if basex.valueType.regType = REGT_FLOAT then
    if basex.isConstant then do
      let constval := basex.getValue
      if ¬ noWarn ∧ (constval.GetInt : Rat) ≠ constval.GetFloat then
        msgWarning "Truncation of floating point constant"
      else pure ()
      pure (.fxConstant (intVal constval.GetInt))
    else do
      if ¬ noWarn then msgWarning "Truncation of floating point value"
      else pure ()
      pure (.fxIntCast basex noWarn)
  else msgError "Numeric type expected"

/-- Body of `FxFloatCast::Resolve` (codegen.cpp:658-700) after `basex` has
been resolved. -/
def fxFloatCastResolvePost (basex : FxExpr) : ResM FxExpr :=
  if basex.valueType.regType = REGT_FLOAT then pure basex
  else if basex.valueType.regType = REGT_INT then
    if basex.valueType ≠ .tName then
      if basex.isConstant then pure (.fxConstant (floatVal basex.getValue.GetFloat))
      else pure (.fxFloatCast basex)
    else do
      msgOptError "Numeric type expected, got a name"
      pure (.fxConstant (floatVal 0))
  else msgError "Numeric type expected"

/-- `FxBinary::Promote` (codegen.cpp:2035-2045): wrap the non-float side of
a mixed int/float pair in a float cast and resolve it (the operands are
already resolved, so the cast's resolution is its post-resolution body). -/
def promote (l r : FxExpr) : ResM (FxExpr × FxExpr) :=
  if l.valueType.regType = REGT_FLOAT ∧ r.valueType.regType = REGT_INT then do
    let r2 ← fxFloatCastResolvePost r
    pure (l, r2)
  else if l.valueType.regType = REGT_INT ∧ r.valueType.regType = REGT_FLOAT then do
    let l2 ← fxFloatCastResolvePost l
    pure (l2, r)
  else pure (l, r)

/-- `fmod` on the rational model of doubles. -/
def qfmod (x y : Rat) : Rat := x - (truncQ (x / y) : Rat) * y

/-- The constant-merging comparison of `FxMinMax::Resolve`
(codegen.cpp:3456-3491): fold one further constant into the running best. -/
def minMaxMergeOne (kind : MinMaxKind) (best value : ExpVal) : ExpVal :=
  match kind with
  | .nameMin =>
    if value.typ.regType = REGT_FLOAT then
      (if value.fval < best.fval then { best with fval := value.fval } else best)
    else
      (if value.ival < best.ival then { best with ival := value.ival } else best)
  | .nameMax =>
    if value.typ.regType = REGT_FLOAT then
      (if value.fval > best.fval then { best with fval := value.fval } else best)
    else
      (if value.ival > best.ival then { best with ival := value.ival } else best)

/-- The inner loop of `FxMinMax::Resolve`'s constant merge
(codegen.cpp:3448-3495): constants after the first one are folded into
`best` and removed, non-constants stay in place. -/
def minMaxMergeAfter (kind : MinMaxKind) (best : ExpVal) :
    List FxExpr → ExpVal × List FxExpr
  | [] => (best, [])
  | c :: rest =>
    if c.isConstant then
      minMaxMergeAfter kind (minMaxMergeOne kind best c.getValue) rest
    else
      let (b, l) := minMaxMergeAfter kind best rest
      (b, c :: l)

/-- The outer loop of `FxMinMax::Resolve`'s constant merge
(codegen.cpp:3441-3506): find the first constant, merge every later
constant into it. -/
def minMaxMergeConsts (kind : MinMaxKind) : List FxExpr → List FxExpr
  | [] => []
  | c :: rest =>
    if c.isConstant then
      let (best, survivors) := minMaxMergeAfter kind c.getValue rest
      .fxConstant best :: survivors
    else c :: minMaxMergeConsts kind rest

/-- The promotion loop of `FxMinMax::Resolve` (codegen.cpp:3420-3431):
wrap every integer-class choice in a resolved float cast. -/
def castMinMaxChoicesToFloat : List FxExpr → ResM (List FxExpr)
  | [] => pure []
  | c :: rest => do
    let c ← if c.valueType.regType = REGT_INT then fxFloatCastResolvePost c
      else pure c
    let rest ← castMinMaxChoicesToFloat rest
    pure (c :: rest)

mutual

/-- `FxExpression::Resolve` dispatch over the embedded node kinds
(each case is the corresponding `Fx*::Resolve` body).  Re-resolution of an
already-resolved node is a `CHECKRESOLVED()` no-op in the C++ code; the
embedding resolves each tree once. -/
def resolve : FxExpr → ResM FxExpr
  | .fxConstant v => pure (.fxConstant v)
  | .fxLocalVariable t rn => pure (.fxLocalVariable t rn)
  | .fxBoolCast basex => do
    let b ← resolve basex
    fxBoolCastResolvePost b
  | .fxIntCast basex noWarn => do
    let b ← resolve basex
    fxIntCastResolvePost noWarn b
  | .fxFloatCast basex => do
    let b ← resolve basex
    fxFloatCastResolvePost b
  | .fxBinaryLogical op l r => do
    -- FxBinaryLogical::Resolve (codegen.cpp:2871-2954)
    let (l, r) ← resolve2 (resolve l) (resolve r)
    let l ← if l.valueType ≠ .tBool then fxBoolCastResolvePost l else pure l
    let r ← if r.valueType ≠ .tBool then fxBoolCastResolvePost r else pure r
    let bLeft : Int := if l.isConstant then (if l.getValue.GetBool then 1 else 0) else -1
    let bRight : Int := if r.isConstant then (if r.getValue.GetBool then 1 else 0) else -1
    match op with
    | .andAnd =>
      if bLeft = 0 ∨ bRight = 0 then
        pure (.fxConstant (boolVal true))      -- codegen.cpp:2897-2902
      else if bLeft = 1 ∧ bRight = 1 then
        pure (.fxConstant (boolVal false))     -- codegen.cpp:2903-2908
      else if bLeft = 1 then pure r
      else if bRight = 1 then pure l
      else pure (.fxBinaryLogical op l r)
    | .orOr =>
      if bLeft = 1 ∨ bRight = 1 then pure (.fxConstant (boolVal true))
      else if bLeft = 0 ∧ bRight = 0 then pure (.fxConstant (boolVal false))
      else if bLeft = 0 then pure r
      else if bRight = 0 then pure l
      else pure (.fxBinaryLogical op l r)
  | .fxAddSub op _ l r => do
    -- FxAddSub::Resolve (codegen.cpp:2064-2107)
    let (l, r) ← resolve2 (resolve l) (resolve r)
    let vt := resolveLRType l r
    if ¬ vt.isNumeric then msgError "Numeric type expected"
    else if l.isConstant ∧ r.isConstant then
      if vt.regType = REGT_FLOAT then
        let v1 := l.getValue.GetFloat
        let v2 := r.getValue.GetFloat
        let v : Rat := match op with | .add => v1 + v2 | .sub => v1 - v2
        pure (.fxConstant (floatVal v))
      else
        let v1 := l.getValue.GetInt
        let v2 := r.getValue.GetInt
        let v : Int := match op with | .add => v1 + v2 | .sub => v1 - v2
        pure (.fxConstant (intVal v))
    else do
      let (l, r) ← promote l r
      pure (.fxAddSub op vt l r)
  | .fxMulDiv op _ l r => do
    -- FxMulDiv::Resolve (codegen.cpp:2189-2249)
    let (l, r) ← resolve2 (resolve l) (resolve r)
    let vt := resolveLRType l r
    if ¬ vt.isNumeric then msgError "Numeric type expected"
    else if l.isConstant ∧ r.isConstant then
      if vt.regType = REGT_FLOAT then
        let v1 := l.getValue.GetFloat
        let v2 := r.getValue.GetFloat
        if op ≠ .mul ∧ v2 = 0 then msgError "Division by 0"
        else
          let v : Rat := match op with
            | .mul => v1 * v2
            | .div => v1 / v2
            | .mod => qfmod v1 v2
          pure (.fxConstant (floatVal v))
      else
        let v1 := l.getValue.GetInt
        let v2 := r.getValue.GetInt
        if op ≠ .mul ∧ v2 = 0 then msgError "Division by 0"
        else
          let v : Int := match op with
            | .mul => v1 * v2
            | .div => v1.tdiv v2  -- C++ integer division truncates
            | .mod => v1.tmod v2
          pure (.fxConstant (intVal v))
    else do
      let (l, r) ← promote l r
      pure (.fxMulDiv op vt l r)
  | .fxLtGtEq _ l r => do
    -- FxLtGtEq::Resolve (codegen.cpp:2764-2799)
    let (l, r) ← resolve2 (resolve l) (resolve r)
    let vt := resolveLRType l r
    if ¬ l.isNumeric ∨ ¬ r.isNumeric then
      msgError "<>= expects two numeric operands"
    else if l.valueType.regType ≠ r.valueType.regType then do
      -- codegen.cpp:2777-2781: left int → left = resolved FxFloatCast(left)
      let l2 ← if l.valueType.regType = REGT_INT then fxFloatCastResolvePost l
        else pure l
      -- codegen.cpp:2782-2786: right int → `right = new FxFloatCast(left)`,
      -- and then `SAFE_RESOLVE(left, ctx)`: the cast wraps the LEFT operand
      -- and it is `left` that is resolved again (a CHECKRESOLVED no-op);
      -- the new right child is left unresolved.
      let r2 := if r.valueType.regType = REGT_INT then FxExpr.fxFloatCast l2 else r
      pure (.fxLtGtEq vt l2 r2)
    else if l.isConstant ∧ r.isConstant then
      let v1 := l.getValue.GetFloat
      let v2 := r.getValue.GetFloat
      pure (.fxConstant (intVal (if v1 < v2 then -1 else if v1 > v2 then 1 else 0)))
    else pure (.fxLtGtEq vt l r)
  | .fxMinMax kind _ choices => do
    -- FxMinMax::Resolve (codegen.cpp:3388-3509)
    let (choices, intcount, floatcount) ← resolveMinMaxArgs choices
    let vt : PType := if floatcount ≠ 0 then .tFloat64 else .tSInt32
    let choices ←
      if floatcount ≠ 0 ∧ intcount ≠ 0 then castMinMaxChoicesToFloat choices
      else pure choices
    let merged := minMaxMergeConsts kind choices
    match merged with
    | [FxExpr.fxConstant b] => pure (.fxConstant b)  -- every choice was constant
    | _ => pure (.fxMinMax kind vt merged)

/-- The classification loop of `FxMinMax::Resolve` (codegen.cpp:3396-3416):
resolve each choice in order, counting int-class and float-class choices and
failing on anything else. -/
def resolveMinMaxArgs : List FxExpr → ResM (List FxExpr × Nat × Nat)
  | [] => pure ([], 0, 0)
  | c :: rest => do
    let c ← resolve c
    if c.valueType.regType = REGT_FLOAT then do
      let (cs, ic, fc) ← resolveMinMaxArgs rest
      pure (c :: cs, ic, fc + 1)
    else if c.valueType.regType = REGT_INT ∧ c.valueType ≠ .tName then do
      let (cs, ic, fc) ← resolveMinMaxArgs rest
      pure (c :: cs, ic + 1, fc)
    else msgError "Arguments must be of type int or float"

end

/-- The VM opcodes the embedded emissions touch.  `OP_LW`/`OP_SW`/`OP_LF`/
`OP_SF` stand for the per-type load/store operation identifiers the type
facade reports (their numeric values live in headers outside the
snapshot). -/
inductive Opcode where
  | OP_LI | OP_JMP
  | OP_EQ_R | OP_EQ_K | OP_EQF_R | OP_EQF_K | OP_EQA_R | OP_EQA_K
  | OP_LT_RR | OP_LT_RK | OP_LT_KR
  | OP_LTU_RR | OP_LTU_RK | OP_LTU_KR
  | OP_LTF_RR | OP_LTF_RK | OP_LTF_KR
  | OP_LE_RR | OP_LE_RK | OP_LE_KR
  | OP_LEU_RR | OP_LEU_RK | OP_LEU_KR
  | OP_LEF_RR | OP_LEF_RK | OP_LEF_KR
  | OP_ADD_RR | OP_ADD_RK | OP_ADDF_RR | OP_ADDF_RK
  | OP_SUB_RR | OP_SUB_RK | OP_SUB_KR | OP_SUBF_RR | OP_SUBF_RK | OP_SUBF_KR
  | OP_MUL_RR | OP_MUL_RK | OP_MULF_RR | OP_MULF_RK
  | OP_DIV_RR | OP_DIV_RK | OP_DIV_KR | OP_DIVF_RR | OP_DIVF_RK | OP_DIVF_KR
  | OP_MOD_RR | OP_MOD_RK | OP_MOD_KR | OP_MODF_RR | OP_MODF_RK | OP_MODF_KR
  | OP_CAST
  | OP_LW | OP_SW | OP_LF | OP_SF
  | OP_MOVE | OP_MOVEF
  | OP_LK | OP_LKF | OP_LKS | OP_LKP
  | OP_PARAM | OP_CALL_K | OP_TAIL_K | OP_RESULT | OP_RET | OP_RETI

deriving instance DecidableEq, Repr for Opcode

/-- An emitted instruction: opcode plus up to three operand fields. -/
structure Instr where
  op : Opcode
  opA : Int := 0
  opB : Int := 0
  opC : Int := 0

deriving instance DecidableEq, Repr for Instr

/-- Build an instruction (mirrors `VMFunctionBuilder::Emit`'s operands). -/
def mkIns (op : Opcode) (x y z : Int) : Instr := ⟨op, x, y, z⟩

/-- `CAST_I2F` / `CAST_F2I`, the conversion selectors of `OP_CAST`
(numerals from the VM header outside the snapshot; their exact values are
irrelevant to the claims). -/
def CAST_I2F : Int := 0

/-- See `CAST_I2F`. -/
def CAST_F2I : Int := 1

/-- `CMP_APPROX`, the approximate-comparison selector of the equality
opcodes (numeral from the VM header outside the snapshot). -/
def CMP_APPROX : Int := 2

/-- One register class of the allocator (spec section 2: a free-list /
high-water-mark tracker).  `getCount` / `retCount` record how often the
class was acquired from and released to, for the bookkeeping claims. -/
structure RegAvail where
  next : Nat := 0
  freed : List Nat := []
  getCount : Nat := 0
  retCount : Nat := 0

deriving instance DecidableEq, Repr for RegAvail

/-- `RegAvailability::Get(1)`: reuse a freed register if any, else extend
the high-water mark. -/
def RegAvail.get1 : RegAvail → RegAvail × Nat
  | ⟨next, [], g, r⟩ => (⟨next + 1, [], g + 1, r⟩, next)
  | ⟨next, f :: fs, g, r⟩ => (⟨next, fs, g + 1, r⟩, f)

/-- `RegAvailability::Return(reg, 1)`. -/
def RegAvail.ret1 (ra : RegAvail) (n : Nat) : RegAvail :=
  { ra with freed := n :: ra.freed, retCount := ra.retCount + 1 }

/-- Tags of the tagged-address constant pool. -/
inductive ATag where
  | generic
  | object
  | state

deriving instance DecidableEq, Repr for ATag

/-- The code builder: per-class register allocators, the append-only
instruction stream, and the four constant pools (spec section 2). -/
structure VMFunctionBuilder where
  intRegs : RegAvail := {}
  floatRegs : RegAvail := {}
  stringRegs : RegAvail := {}
  ptrRegs : RegAvail := {}
  code : List Instr := []
  intConsts : List Int := []
  floatConsts : List Rat := []
  stringConsts : List String := []
  addrConsts : List (Option Nat × ATag) := []
  isActionFunc : Bool := false

/-- `Registers[cls]` (read). -/
def VMFunctionBuilder.regs (bu : VMFunctionBuilder) (cls : Nat) : RegAvail :=
  if cls = REGT_INT then bu.intRegs
  else if cls = REGT_FLOAT then bu.floatRegs
  else if cls = REGT_STRING then bu.stringRegs
  else bu.ptrRegs

/-- `Registers[cls]` (write). -/
def VMFunctionBuilder.setRegs (bu : VMFunctionBuilder) (cls : Nat) (ra : RegAvail) :
    VMFunctionBuilder :=
  if cls = REGT_INT then { bu with intRegs := ra }
  else if cls = REGT_FLOAT then { bu with floatRegs := ra }
  else if cls = REGT_STRING then { bu with stringRegs := ra }
  else { bu with ptrRegs := ra }

/-- `Registers[cls].Get(1)`. -/
def VMFunctionBuilder.regGet (bu : VMFunctionBuilder) (cls : Nat) :
    VMFunctionBuilder × Nat :=
  let (ra, n) := (bu.regs cls).get1
  (bu.setRegs cls ra, n)

/-- `VMFunctionBuilder::Emit`: append an instruction, return its address. -/
def VMFunctionBuilder.emit (bu : VMFunctionBuilder) (i : Instr) :
    VMFunctionBuilder × Nat :=
  ({ bu with code := bu.code ++ [i] }, bu.code.length)

/-- `VMFunctionBuilder::GetAddress`. -/
def VMFunctionBuilder.getAddress (bu : VMFunctionBuilder) : Nat := bu.code.length

/-- `VMFunctionBuilder::GetConstantInt`: index into the deduplicated int
constant pool. -/
def VMFunctionBuilder.getConstantInt (bu : VMFunctionBuilder) (v : Int) :
    VMFunctionBuilder × Nat :=
  match bu.intConsts.indexOf? v with
  | some i => (bu, i)
  | none => ({ bu with intConsts := bu.intConsts ++ [v] }, bu.intConsts.length)

/-- `VMFunctionBuilder::GetConstantFloat`. -/
def VMFunctionBuilder.getConstantFloat (bu : VMFunctionBuilder) (v : Rat) :
    VMFunctionBuilder × Nat :=
  match bu.floatConsts.indexOf? v with
  | some i => (bu, i)
  | none => ({ bu with floatConsts := bu.floatConsts ++ [v] }, bu.floatConsts.length)

/-- `VMFunctionBuilder::GetConstantAddress` (pointer modelled as
`Option Nat`, `none` for `nullptr`). -/
def VMFunctionBuilder.getConstantAddress (bu : VMFunctionBuilder)
    (p : Option Nat) (tag : ATag) : VMFunctionBuilder × Nat :=
  match bu.addrConsts.indexOf? (p, tag) with
  | some i => (bu, i)
  | none => ({ bu with addrConsts := bu.addrConsts ++ [(p, tag)] }, bu.addrConsts.length)

/-- Overwrite the `opA` operand of the instruction at index `loc`. -/
def patchA (code : List Instr) (loc : Nat) (a : Int) : List Instr :=
  match code, loc with
  | [], _ => []
  | i :: rest, 0 => { i with opA := a } :: rest
  | i :: rest, l + 1 => i :: patchA rest l a

/-- `VMFunctionBuilder::Backpatch(loc, target)`: write the jump offset of
the deferred branch at `loc`. -/
def VMFunctionBuilder.backpatch (bu : VMFunctionBuilder) (loc target : Nat) :
    VMFunctionBuilder :=
  { bu with code := patchA bu.code loc ((target : Int) - (loc : Int) - 1) }

/-- `VMFunctionBuilder::BackpatchToHere`. -/
def VMFunctionBuilder.backpatchToHere (bu : VMFunctionBuilder) (loc : Nat) :
    VMFunctionBuilder :=
  bu.backpatch loc bu.getAddress

/-- The location descriptor `ExpEmit` (codegen.h is outside the snapshot,
but the fields and flags are pinned down by `ExpEmit`'s uses in
codegen.cpp:181-201 and by spec section 3). -/
structure ExpEmit where
  regNum : Nat := 0
  regType : Nat := REGT_NIL
  konst : Bool := false
  fixed : Bool := false
  final : Bool := false
  target : Bool := false

deriving instance DecidableEq, Repr for ExpEmit

/-- The `ExpEmit(build, type)` constructor (codegen.cpp:181-184): acquire a
register of the class from the allocator. -/
def newExpEmit (bu : VMFunctionBuilder) (ty : Nat) : VMFunctionBuilder × ExpEmit :=
  let (bu, n) := bu.regGet ty
  (bu, { regNum := n, regType := ty })

/-- `ExpEmit::Free` (codegen.cpp:186-192): return the register unless the
descriptor is fixed or constant (or carries no register at all). -/
def ExpEmit.free (e : ExpEmit) (bu : VMFunctionBuilder) : VMFunctionBuilder :=
  if ¬ e.fixed ∧ ¬ e.konst ∧ e.regType ≤ REGT_TYPE then
    bu.setRegs e.regType ((bu.regs e.regType).ret1 e.regNum)
  else bu

/-- Modelled from the spec: per-type load/store operation identifiers
reported by the type facade (spec section 2; the opcode table is outside
the snapshot). -/
def PType.getLoadOp : PType → Opcode
  | .tFloat64 => .OP_LF
  | _ => .OP_LW

/-- See `PType.getLoadOp`. -/
def PType.getStoreOp : PType → Opcode
  | .tFloat64 => .OP_SF
  | _ => .OP_SW

/-- One increment/decrement token (`TK_Incr` / `TK_Decr`). -/
inductive IncrToken where
  | incr
  | decr

deriving instance DecidableEq, Repr for IncrToken

/-- `FxAddSub::Emit` (codegen.cpp:2115-2170) after the two operands have
been emitted into `op1`/`op2`; `vtReg` is `ValueType->GetRegType()`. -/
def fxAddSubEmitCore (bu : VMFunctionBuilder) (oper : AddOp) (vtReg : Nat)
    (op1 op2 : ExpEmit) : VMFunctionBuilder × ExpEmit :=
  match oper with
  | .add =>
    -- Since addition is commutative, only the second operand may be a constant.
    let (op1, op2) := if op1.konst then (op2, op1) else (op1, op2)
    let bu := op1.free bu
    let bu := op2.free bu
    if vtReg = REGT_FLOAT then
      let (bu, dst) := newExpEmit bu REGT_FLOAT
      let (bu, _) := bu.emit
        (mkIns (if op2.konst then .OP_ADDF_RK else .OP_ADDF_RR)
          dst.regNum op1.regNum op2.regNum)
      (bu, dst)
    else
      let (bu, dst) := newExpEmit bu REGT_INT
      let (bu, _) := bu.emit
        (mkIns (if op2.konst then .OP_ADD_RK else .OP_ADD_RR)
          dst.regNum op1.regNum op2.regNum)
      (bu, dst)
  | .sub =>
    -- Subtraction is not commutative, so either side may be constant (but not both).
    let bu := op1.free bu
    let bu := op2.free bu
    if vtReg = REGT_FLOAT then
      let (bu, dst) := newExpEmit bu REGT_FLOAT
      let (bu, _) := bu.emit
        (mkIns (if op1.konst then .OP_SUBF_KR else if op2.konst then .OP_SUBF_RK else .OP_SUBF_RR)
          dst.regNum op1.regNum op2.regNum)
      (bu, dst)
    else
      let (bu, dst) := newExpEmit bu REGT_INT
      let (bu, _) := bu.emit
        (mkIns (if op1.konst then .OP_SUB_KR else if op2.konst then .OP_SUB_RK else .OP_SUB_RR)
          dst.regNum op1.regNum op2.regNum)
      (bu, dst)

/-- `FxMulDiv::Emit` (codegen.cpp:2258-2316) after the two operands have
been emitted into `op1`/`op2`. -/
def fxMulDivEmitCore (bu : VMFunctionBuilder) (oper : MulOp) (vtReg : Nat)
    (op1 op2 : ExpEmit) : VMFunctionBuilder × ExpEmit :=
  match oper with
  | .mul =>
    -- Multiplication is commutative, so only the second operand may be constant.
    let (op1, op2) := if op1.konst then (op2, op1) else (op1, op2)
    let bu := op1.free bu
    let bu := op2.free bu
    if vtReg = REGT_FLOAT then
      let (bu, dst) := newExpEmit bu REGT_FLOAT
      let (bu, _) := bu.emit
        (mkIns (if op2.konst then .OP_MULF_RK else .OP_MULF_RR)
          dst.regNum op1.regNum op2.regNum)
      (bu, dst)
    else
      let (bu, dst) := newExpEmit bu REGT_INT
      let (bu, _) := bu.emit
        (mkIns (if op2.konst then .OP_MUL_RK else .OP_MUL_RR)
          dst.regNum op1.regNum op2.regNum)
      (bu, dst)
  | .div =>
    -- Division is not commutative, so either side may be constant (but not both).
    let bu := op1.free bu
    let bu := op2.free bu
    if vtReg = REGT_FLOAT then
      let (bu, dst) := newExpEmit bu REGT_FLOAT
      let (bu, _) := bu.emit
        (mkIns (if op1.konst then .OP_DIVF_KR else if op2.konst then .OP_DIVF_RK else .OP_DIVF_RR)
          dst.regNum op1.regNum op2.regNum)
      (bu, dst)
    else
      let (bu, dst) := newExpEmit bu REGT_INT
      let (bu, _) := bu.emit
        (mkIns (if op1.konst then .OP_DIV_KR else if op2.konst then .OP_DIV_RK else .OP_DIV_RR)
          dst.regNum op1.regNum op2.regNum)
      (bu, dst)
  | .mod =>
    let bu := op1.free bu
    let bu := op2.free bu
    if vtReg = REGT_FLOAT then
      let (bu, dst) := newExpEmit bu REGT_FLOAT
      let (bu, _) := bu.emit
        (mkIns (if op1.konst then .OP_MODF_KR else if op2.konst then .OP_MODF_RK else .OP_MODF_RR)
          dst.regNum op1.regNum op2.regNum)
      (bu, dst)
    else
      let (bu, dst) := newExpEmit bu REGT_INT
      let (bu, _) := bu.emit
        (mkIns (if op1.konst then .OP_MOD_KR else if op2.konst then .OP_MOD_RK else .OP_MOD_RR)
          dst.regNum op1.regNum op2.regNum)
      (bu, dst)

/-- The condition operand of the equality opcodes:
`Operator == TK_ApproxEq ? CMP_APPROX : Operator != TK_Eq`. -/
def eqCondParam : EqOp → Int
  | .approxEq => CMP_APPROX
  | .eq => 0
  | .neq => 1

/-- `FxCompareEq::Emit` (codegen.cpp:2560-2596) after the two operands have
been emitted into `op1`/`op2`. -/
def fxCompareEqEmitCore (bu : VMFunctionBuilder) (oper : EqOp)
    (op1 op2 : ExpEmit) : VMFunctionBuilder × ExpEmit :=
  -- Only the second operand may be constant.
  let (op1, op2) := if op1.konst then (op2, op1) else (op1, op2)
  let (bu, dst) := newExpEmit bu REGT_INT
  let bu := op1.free bu
  let bu := if ¬ op2.konst then op2.free bu else bu
  -- `instr = OP_EQ_R / OP_EQF_R / OP_EQA_R`, `instr += 1` when op2 is
  -- constant (the `_K` variant follows the `_R` variant in the opcode table)
  let instr : Opcode :=
    if op1.regType = REGT_INT then (if op2.konst then .OP_EQ_K else .OP_EQ_R)
    else if op1.regType = REGT_FLOAT then (if op2.konst then .OP_EQF_K else .OP_EQF_R)
    else (if op2.konst then .OP_EQA_K else .OP_EQA_R)
  let (bu, _) := bu.emit (mkIns .OP_LI dst.regNum 0 0)
  let (bu, _) := bu.emit (mkIns instr (eqCondParam oper) op1.regNum op2.regNum)
  let (bu, _) := bu.emit (mkIns .OP_JMP 1 0 0)
  let (bu, _) := bu.emit (mkIns .OP_LI dst.regNum 1 0)
  (bu, dst)

/-- The comparison instruction of `FxLtGtEq::Emit` (codegen.cpp:2818-2820,
2829): base `OP_LT_RR` / `OP_LTU_RR` / `OP_LTF_RR`; `instr += 2` when op1
is constant (`_KR`), `instr += 1` when op2 is constant (`_RK`) — the
variants are contiguous in the opcode table — and
`instr + OP_LE_RR - OP_LT_RR` moves to the `LE` family preserving the
variant.  Both operands constant is unreachable (asserted in the source,
and excluded by `FxLtGtEq::Resolve`'s constant folding); for totality that
case maps to the `_KR` variant. -/
def ltGtEqInstr (isUnsigned isFloat : Bool) (k1 k2 : Bool) (le : Bool) : Opcode :=
  if isFloat then
    (if k1 then (if le then .OP_LEF_KR else .OP_LTF_KR)
     else if k2 then (if le then .OP_LEF_RK else .OP_LTF_RK)
     else (if le then .OP_LEF_RR else .OP_LTF_RR))
  else if isUnsigned then
    (if k1 then (if le then .OP_LEU_KR else .OP_LTU_KR)
     else if k2 then (if le then .OP_LEU_RK else .OP_LTU_RK)
     else (if le then .OP_LEU_RR else .OP_LTU_RR))
  else
    (if k1 then (if le then .OP_LE_KR else .OP_LT_KR)
     else if k2 then (if le then .OP_LE_RK else .OP_LT_RK)
     else (if le then .OP_LE_RR else .OP_LT_RR))

/-- `FxLtGtEq::Emit` (codegen.cpp:2807-2836) after the two operands have
been emitted into `op1`/`op2`; `leftIsUInt` is
`left->ValueType == TypeUInt32`.  Neither `op1.Free` nor `op2.Free` is
ever called in this function. -/
def fxLtGtEqEmitCore (bu : VMFunctionBuilder) (leftIsUInt : Bool)
    (op1 op2 : ExpEmit) : VMFunctionBuilder × ExpEmit :=
  let (bu, dst) := newExpEmit bu REGT_INT
  let isFloat := op1.regType ≠ REGT_INT
  let k1 := op1.konst
  let k2 := op2.konst
  let (bu, _) := bu.emit (mkIns .OP_LI dst.regNum 1 0)                -- default to 1
  let (bu, _) := bu.emit
    (mkIns (ltGtEqInstr leftIsUInt isFloat k1 k2 false) 0 op1.regNum op2.regNum)
  let (bu, j1) := bu.emit (mkIns .OP_JMP 1 0 0)
  let (bu, _) := bu.emit (mkIns .OP_LI dst.regNum (-1) 0)             -- result is -1
  let (bu, j2) := bu.emit (mkIns .OP_JMP 1 0 0)                      -- jump to end
  let bu := bu.backpatchToHere j1
  let (bu, _) := bu.emit
    (mkIns (ltGtEqInstr leftIsUInt isFloat k1 k2 true) 0 op1.regNum op2.regNum)
  let (bu, j3) := bu.emit (mkIns .OP_JMP 1 0 0)
  let (bu, _) := bu.emit (mkIns .OP_LI dst.regNum 0 0)                -- result is 0
  let bu := bu.backpatchToHere j2
  let bu := bu.backpatchToHere j3
  (bu, dst)

/-- `FxPreIncrDecr::Emit` (codegen.cpp:1636-1674) as a function of the
already-obtained `zero` constant index and the already-emitted `pointer`
descriptor (`int zero = build->GetConstantInt(0); ...;
ExpEmit pointer = Base->Emit(build);` precede this body). -/
def fxPreIncrDecrEmitCore (bu : VMFunctionBuilder) (valueType : PType)
    (token : IncrToken) (addressRequested : Bool) (zeroIdx : Nat)
    (pointer : ExpEmit) : VMFunctionBuilder × ExpEmit :=
  let regtype := valueType.regType
  let (bu, value) :=
    if ¬ pointer.target then
      let (bu, value) := newExpEmit bu regtype
      let (bu, _) := bu.emit (mkIns valueType.getLoadOp value.regNum pointer.regNum zeroIdx)
      (bu, value)
    else (bu, pointer)
  let bu :=
    if regtype = REGT_INT then
      let (bu, one) := bu.getConstantInt 1
      (bu.emit (mkIns (if token = .incr then .OP_ADD_RK else .OP_SUB_RK)
        value.regNum value.regNum one)).1
    else
      let (bu, one) := bu.getConstantFloat 1
      (bu.emit (mkIns (if token = .incr then .OP_ADDF_RK else .OP_SUBF_RK)
        value.regNum value.regNum one)).1
  let bu :=
    if ¬ pointer.target then
      (bu.emit (mkIns valueType.getStoreOp pointer.regNum value.regNum zeroIdx)).1
    else bu
  if addressRequested then
    let bu := value.free bu
    (bu, pointer)
  else
    let bu := pointer.free bu
    (bu, value)

/-- `FxPostIncrDecr::Emit` (codegen.cpp:1722-1756) as a function of the
already-obtained `zero` constant index and the already-emitted `pointer`
descriptor. -/
def fxPostIncrDecrEmitCore (bu : VMFunctionBuilder) (valueType : PType)
    (token : IncrToken) (zeroIdx : Nat) (pointer : ExpEmit) :
    VMFunctionBuilder × ExpEmit :=
  let regtype := valueType.regType
  let (bu, out) :=
    if ¬ pointer.target then
      let (bu, out) := newExpEmit bu regtype
      let (bu, _) := bu.emit (mkIns valueType.getLoadOp out.regNum pointer.regNum zeroIdx)
      (bu, out)
    else (bu, pointer)
  let (bu, assign) := newExpEmit bu regtype
  let bu :=
    if regtype = REGT_INT then
      let (bu, one) := bu.getConstantInt 1
      (bu.emit (mkIns (if token = .incr then .OP_ADD_RK else .OP_SUB_RK)
        assign.regNum out.regNum one)).1
    else
      let (bu, one) := bu.getConstantFloat 1
      (bu.emit (mkIns (if token = .incr then .OP_ADDF_RK else .OP_SUBF_RK)
        assign.regNum out.regNum one)).1
  let bu :=
    if ¬ pointer.target then
      (bu.emit (mkIns valueType.getStoreOp pointer.regNum assign.regNum zeroIdx)).1
    else bu
  let bu := pointer.free bu
  let bu := assign.free bu
  (bu, out)

/-- `REGT_KONST = 4`, the "operand is a constant-pool index" flag OR-ed
onto a register class (VM header outside the snapshot; for the class
numerals 0-3 the OR equals an addition). -/
def REGT_KONST : Nat := 4

/-- `RET_FINAL`, the terminal-return flag of `OP_RET` (numeral from the VM
header outside the snapshot). -/
def RET_FINAL : Int := 128

/-- `EmitLoad` (codegen.cpp:3516-3526).  `EmitLoadInt` lives in the missing
`vmbuilder.cpp`; it loads an integer immediate, modelled as `OP_LI`. -/
def emitLoad (bu : VMFunctionBuilder) (resultreg : ExpEmit) (value : ExpVal) :
    VMFunctionBuilder :=
  if resultreg.regType = REGT_FLOAT then
    let (bu, k) := bu.getConstantFloat value.GetFloat
    (bu.emit (mkIns .OP_LKF resultreg.regNum k 0)).1
  else
    (bu.emit (mkIns .OP_LI resultreg.regNum value.GetInt 0)).1

/-- The comparison opcode of `FxMinMax::Emit` (codegen.cpp:3539-3548 and
3568): `OP_LE*` with condition 1 for min, `OP_LT*` with condition 0 for
max; `opcode + checkreg.Konst` selects the `_RK` variant (contiguous in
the opcode table, as the asserts at codegen.cpp:3534-3537 record). -/
def minMaxCmpOpcode (kind : MinMaxKind) (isFloat konst : Bool) : Opcode :=
  match kind, isFloat, konst with
  | .nameMin, true, false => .OP_LEF_RR
  | .nameMin, true, true => .OP_LEF_RK
  | .nameMin, false, false => .OP_LE_RR
  | .nameMin, false, true => .OP_LE_RK
  | .nameMax, true, false => .OP_LTF_RR
  | .nameMax, true, true => .OP_LTF_RK
  | .nameMax, false, false => .OP_LT_RR
  | .nameMax, false, true => .OP_LT_RK

mutual

/-- `FxExpression::Emit` dispatch over the embedded node kinds (each case
is the corresponding `Fx*::Emit` body; the binary nodes delegate to their
`*EmitCore` functions after emitting both operands). -/
def emitExpr : FxExpr → VMFunctionBuilder → VMFunctionBuilder × ExpEmit
  | .fxConstant v, bu =>
    -- FxConstant::Emit (codegen.cpp:391-429); regtype = value.Type->GetRegType()
    if v.typ.regType = REGT_INT then
      let (bu, n) := bu.getConstantInt v.ival
      (bu, { regNum := n, regType := v.typ.regType, konst := true })
    else if v.typ.regType = REGT_FLOAT then
      let (bu, n) := bu.getConstantFloat v.fval
      (bu, { regNum := n, regType := v.typ.regType, konst := true })
    else
      -- "Cannot emit needed constant" (unreachable for the modelled types)
      (bu, { regNum := 0, regType := v.typ.regType, konst := true })
  | .fxLocalVariable t rn, bu =>
    -- FxLocalVariable::Emit (codegen.cpp:4318-4323): the variable's own
    -- register, fixed; Target is only set when an address was requested,
    -- which is never the case for the value reads in the emitted trees here
    (bu, { regNum := rn, regType := t.regType, fixed := true })
  | .fxBoolCast basex, bu =>
    -- FxBoolCast::Emit (codegen.cpp:497-527)
    let (bu, fromE) := emitExpr basex bu
    let (bu, dst) := newExpEmit bu REGT_INT
    let bu := fromE.free bu
    let (bu, _) := bu.emit (mkIns .OP_LI dst.regNum 0 0)
    let bu :=
      if fromE.regType = REGT_INT then
        (bu.emit (mkIns .OP_EQ_R 1 fromE.regNum dst.regNum)).1
      else if fromE.regType = REGT_FLOAT then
        let (bu, k) := bu.getConstantFloat 0
        (bu.emit (mkIns .OP_EQF_K 1 fromE.regNum k)).1
      else if fromE.regType = REGT_POINTER then
        let (bu, k) := bu.getConstantAddress none .generic
        (bu.emit (mkIns .OP_EQA_K 1 fromE.regNum k)).1
      else bu
    let (bu, _) := bu.emit (mkIns .OP_JMP 1 0 0)
    let (bu, _) := bu.emit (mkIns .OP_LI dst.regNum 1 0)
    (bu, dst)
  | .fxIntCast basex _, bu =>
    -- FxIntCast::Emit (codegen.cpp:617-626)
    let (bu, fromE) := emitExpr basex bu
    let bu := fromE.free bu
    let (bu, dst) := newExpEmit bu REGT_INT
    let (bu, _) := bu.emit (mkIns .OP_CAST dst.regNum fromE.regNum CAST_F2I)
    (bu, dst)
  | .fxFloatCast basex, bu =>
    -- FxFloatCast::Emit (codegen.cpp:708-717)
    let (bu, fromE) := emitExpr basex bu
    let bu := fromE.free bu
    let (bu, dst) := newExpEmit bu REGT_FLOAT
    let (bu, _) := bu.emit (mkIns .OP_CAST dst.regNum fromE.regNum CAST_I2F)
    (bu, dst)
  | .fxBinaryLogical op l r, bu =>
    -- FxBinaryLogical::Emit (codegen.cpp:2962-3014)
    let (bu, op1) := emitExpr l bu
    let (bu, zeroIdx) := bu.getConstantInt 0
    let bu := op1.free bu
    match op with
    | .andAnd =>
      let (bu, _) := bu.emit (mkIns .OP_EQ_K 1 op1.regNum zeroIdx)
      let (bu, patchspot) := bu.emit (mkIns .OP_JMP 0 0 0)
      let (bu, op2) := emitExpr r bu
      let bu := op2.free bu
      let (bu, dst) := newExpEmit bu REGT_INT
      let (bu, _) := bu.emit (mkIns .OP_EQ_K 1 op2.regNum zeroIdx)
      let (bu, _) := bu.emit (mkIns .OP_JMP 2 0 0)
      let (bu, _) := bu.emit (mkIns .OP_LI dst.regNum 1 0)
      let (bu, _) := bu.emit (mkIns .OP_JMP 1 0 0)
      let (bu, tgt) := bu.emit (mkIns .OP_LI dst.regNum 0 0)
      let bu := bu.backpatch patchspot tgt
      (bu, dst)
    | .orOr =>
      let (bu, _) := bu.emit (mkIns .OP_EQ_K 0 op1.regNum zeroIdx)
      let (bu, patchspot) := bu.emit (mkIns .OP_JMP 0 0 0)
      let (bu, op2) := emitExpr r bu
      let bu := op2.free bu
      let (bu, dst) := newExpEmit bu REGT_INT
      let (bu, _) := bu.emit (mkIns .OP_EQ_K 0 op2.regNum zeroIdx)
      let (bu, _) := bu.emit (mkIns .OP_JMP 2 0 0)
      let (bu, _) := bu.emit (mkIns .OP_LI dst.regNum 0 0)
      let (bu, _) := bu.emit (mkIns .OP_JMP 1 0 0)
      let (bu, tgt) := bu.emit (mkIns .OP_LI dst.regNum 1 0)
      let bu := bu.backpatch patchspot tgt
      (bu, dst)
  | .fxAddSub op vt l r, bu =>
    let (bu, op1) := emitExpr l bu
    let (bu, op2) := emitExpr r bu
    fxAddSubEmitCore bu op vt.regType op1 op2
  | .fxMulDiv op vt l r, bu =>
    let (bu, op1) := emitExpr l bu
    let (bu, op2) := emitExpr r bu
    fxMulDivEmitCore bu op vt.regType op1 op2
  | .fxLtGtEq _ l r, bu =>
    let (bu, op1) := emitExpr l bu
    let (bu, op2) := emitExpr r bu
    fxLtGtEqEmitCore bu (l.valueType = .tUInt32) op1 op2
  | .fxMinMax kind vt choices, bu =>
    -- FxMinMax::Emit (codegen.cpp:3528-3581)
    match choices with
    | [] => (bu, {})  -- unreachable: `assert(choices.Size() > 0)`
    | c0 :: rest =>
      let (bu, bestreg) :=
        if c0.isConstant then
          let (bu, bestreg) := newExpEmit bu vt.regType
          let bu := emitLoad bu bestreg c0.getValue
          (bu, bestreg)
        else emitExpr c0 bu
      minMaxEmitRest kind vt bestreg rest bu

/-- The comparison loop of `FxMinMax::Emit` (codegen.cpp:3563-3580). -/
def minMaxEmitRest (kind : MinMaxKind) (vt : PType) (bestreg : ExpEmit) :
    List FxExpr → VMFunctionBuilder → VMFunctionBuilder × ExpEmit
  | [], bu => (bu, bestreg)
  | c :: rest, bu =>
    let (bu, checkreg) := emitExpr c bu
    let (bu, _) := bu.emit
      (mkIns (minMaxCmpOpcode kind (vt.regType = REGT_FLOAT) checkreg.konst)
        (if kind = .nameMin then 1 else 0) bestreg.regNum checkreg.regNum)
    let (bu, _) := bu.emit (mkIns .OP_JMP 1 0 0)
    let bu :=
      if checkreg.konst then
        (bu.emit (mkIns (if bestreg.regType = REGT_FLOAT then .OP_LKF else .OP_LK)
          bestreg.regNum checkreg.regNum 0)).1
      else
        let bu := (bu.emit
          (mkIns (if bestreg.regType = REGT_FLOAT then .OP_MOVEF else .OP_MOVE)
            bestreg.regNum checkreg.regNum 0)).1
        checkreg.free bu
    minMaxEmitRest kind vt bestreg rest bu

end

/-- `TK_Break` / `TK_Continue`, the token of an `FxJumpStatement`. -/
inductive JumpTok where
  | brk
  | cont

deriving instance DecidableEq, Repr for JumpTok

/-- The statement shapes the loop/jump claims touch: a loop statement
(`FxWhileLoop` et al., with an identity so pending jumps can name the loop
node that collected them), a break/continue (`FxJumpStatement`), statement
sequencing (`FxSequence`), and the empty statement (`FxNop`). -/
inductive FxStmt where
  | loopStmt (id : Nat) (body : FxStmt)
  | jumpStmt (tok : JumpTok)
  | seqStmt (first second : FxStmt)
  | nopStmt

deriving instance DecidableEq, Repr for FxStmt

/-- The statement-resolution state: `ctx.Loop` (the innermost enclosing
loop, a pointer to its node in C++, its `id` here) and the accumulated
`Jumps.Push` registrations `(owning loop id, token)` — jump registration
mutates the owning loop node (`ctx.Loop->Jumps.Push(this)`). -/
structure RState where
  loop : Option Nat := none
  jumps : List (Nat × JumpTok) := []

deriving instance DecidableEq, Repr for RState

/-- Statement resolution.  The returned `Bool` is success; `false` models
the fatal error path (`MSG_ERROR`, `delete this`, `return nullptr`).
* `jumpStmt`: `FxJumpStatement::Resolve` (codegen.cpp:6079-6094) — record
  the jump on `ctx.Loop` if there is one, else "'break'/'continue'
  outside of a loop" is a fatal error;
* `loopStmt`: `FxLoopStatement::Resolve` (codegen.cpp:5756-5763) — save
  `ctx.Loop`, make this loop the innermost, resolve the body
  (`DoResolve`), restore the saved innermost loop;
* `seqStmt`: `FxSequence::Resolve` (codegen.cpp:5493-5505) — children in
  order, aborting on the first failure. -/
def resolveStmt : FxStmt → RState → RState × Bool
  | .nopStmt, st => (st, true)
  | .jumpStmt tok, st =>
    match st.loop with
    | some l => ({ st with jumps := st.jumps ++ [(l, tok)] }, true)
    | none => (st, false)
  | .seqStmt a b, st =>
    let (st, ok) := resolveStmt a st
    if ok then resolveStmt b st else (st, false)
  | .loopStmt i body, st =>
    let outer := st.loop
    let st := { st with loop := some i }
    let (st, ok) := resolveStmt body st
    let st := { st with loop := outer }
    (st, ok)

/-- The function-name facet the call claims need: `CheckEmitCast`
(codegen.cpp:5376-5379) special-cases the four internal decorate cast
kludge functions. -/
inductive FuncName where
  | decorateInternalInt
  | decorateInternalBool
  | decorateInternalState
  | decorateInternalFloat
  | plain (s : String)

deriving instance DecidableEq, Repr for FuncName

/-- Is the name one of the four cast kludge functions? -/
def FuncName.isCastKludge : FuncName → Bool
  | .plain _ => false
  | _ => true

/-- Is the name one of the two integer-valued kludge functions (those take
the immediate-return path when the argument is constant,
codegen.cpp:5384-5389)? -/
def FuncName.isIntKludge : FuncName → Bool
  | .decorateInternalInt => true
  | .decorateInternalBool => true
  | _ => false

/-- The `Variants[0]` facet of a resolved `PFunction`: name, flags, return
register classes of the prototype, and the identity of the implementation
(used as its address-pool key). -/
structure PFunc where
  symbolName : FuncName := .plain ""
  flagsAction : Bool := false
  flagsMethod : Bool := false
  retRegTypes : List Nat := []
  funcId : Nat := 0

deriving instance DecidableEq, Repr for PFunc

/-- An `FxVMFunctionCall` node after resolution: callee, explicit argument
expressions, the receiver when instance-scoped, and the `EmitTail` flag. -/
structure VMCall where
  func : PFunc := {}
  args : List FxExpr := []
  selfExpr : Option FxExpr := none
  emitTail : Bool := false

/-- `FxVMFunctionCall::ReturnProto` (codegen.cpp:5185-5189): called by the
enclosing return statement's resolution, it sets `EmitTail` (and hands the
callee's prototype to the caller). -/
def vmCallReturnProto (c : VMCall) : VMCall := { c with emitTail := true }

/-- `EmitParameter` (codegen.cpp:336-355). -/
def emitParameter (bu : VMFunctionBuilder) (operand : FxExpr) :
    VMFunctionBuilder :=
  let (bu, whr) := emitExpr operand bu
  if whr.regType = REGT_NIL then
    -- "Attempted to pass a non-value" (a fatal message on the emit path)
    (bu.emit (mkIns .OP_PARAM 0 whr.regType whr.regNum)).1
  else
    let regtype : Int := (whr.regType : Int) + (if whr.konst then (REGT_KONST : Int) else 0)
    let bu := (bu.emit (mkIns .OP_PARAM 0 regtype whr.regNum)).1
    whr.free bu

/-- `CheckEmitCast` (codegen.cpp:5373-5406), reached when the callee is a
cast kludge function and there is exactly one argument; `returnit` is the
`EmitTail` flag.  `EmitRetInt` lives in the missing `vmbuilder.cpp` and is
modelled as an `OP_RETI` immediate return. -/
def checkEmitCastEmit (bu : VMFunctionBuilder) (name : FuncName)
    (returnit : Bool) (arg : FxExpr) : VMFunctionBuilder × ExpEmit :=
  if returnit then
    if arg.isConstant ∧ name.isIntKludge then
      let bu := (bu.emit (mkIns .OP_RETI RET_FINAL arg.getValue.ival 0)).1
      (bu, { final := true })
    else
      let (bu, whr) := emitExpr arg bu
      let bu := (bu.emit (mkIns .OP_RET RET_FINAL
        ((whr.regType : Int) + (if whr.konst then (REGT_KONST : Int) else 0))
        whr.regNum)).1
      let bu := whr.free bu
      (bu, { final := true })
  else
    emitExpr arg bu

/-- `FxVMFunctionCall::Emit` (codegen.cpp:5272-5363). -/
def vmCallEmit (bu : VMFunctionBuilder) (c : VMCall) : VMFunctionBuilder × ExpEmit :=
  match c.args, c.func.symbolName.isCastKludge with
  | [arg], true =>
    -- count == 1 and CheckEmitCast applies (codegen.cpp:5278-5285)
    checkEmitCastEmit bu c.func.symbolName c.emitTail arg
  | _, _ =>
    let count := c.args.length
    -- implied parameters (codegen.cpp:5289-5313)
    let (bu, count) :=
      if c.func.flagsMethod then
        let bu :=
          match c.selfExpr with
          | some s => (emitExpr s bu).1
          | none => bu   -- unreachable: `assert(Self != nullptr)`
        (bu, count + 1)
      else (bu, count)
    let (bu, count) :=
      if c.func.flagsAction then
        if bu.isActionFunc then
          let bu := (bu.emit (mkIns .OP_PARAM 0 REGT_POINTER 1)).1
          let bu := (bu.emit (mkIns .OP_PARAM 0 REGT_POINTER 2)).1
          (bu, count + 2)
        else
          let (bu, nullk) := bu.getConstantAddress none .generic
          let bu := (bu.emit (mkIns .OP_PARAM 0 ((REGT_POINTER : Int) + REGT_KONST) nullk)).1
          let bu := (bu.emit (mkIns .OP_PARAM 0 ((REGT_POINTER : Int) + REGT_KONST) nullk)).1
          (bu, count + 2)
      else (bu, count)
    -- explicit parameters (codegen.cpp:5333-5339)
    let bu := c.args.foldl emitParameter bu
    -- the callee's address constant and the call itself (codegen.cpp:5340-5362)
    let (bu, funcaddr) := bu.getConstantAddress (some c.func.funcId) .object
    if c.emitTail then
      -- tail call
      let bu := (bu.emit (mkIns .OP_TAIL_K funcaddr count 0)).1
      (bu, { final := true })
    else if c.func.retRegTypes.length > 0 then
      -- call, expecting one result
      let (bu, reg) := newExpEmit bu (c.func.retRegTypes.headD REGT_INT)
      let bu := (bu.emit (mkIns .OP_CALL_K funcaddr count 1)).1
      let bu := (bu.emit (mkIns .OP_RESULT 0 reg.regType reg.regNum)).1
      (bu, reg)
    else
      -- call, expecting no results
      let bu := (bu.emit (mkIns .OP_CALL_K funcaddr count 0)).1
      (bu, {})

/-- The value of a return statement: absent, a resolved member/static
function call (`FxVMFunctionCall`), or any other resolved expression.  The
split mirrors the virtual dispatch of `Value->ReturnProto()` /
`Value->Emit(build)`.  The full program has further node kinds that
override `ReturnProto` to set their own `EmitTail` and then emit
`OP_TAIL_K` with a final descriptor themselves — `FxRandom`
(codegen.cpp:3620-3624), `FxRandom2` (3994-3997), `FxActionSpecialCall`
(5019-5022) and `FxRuntimeStateIndex` (6383-6386); the embedded
expression universe does not include them, so a statement about
`exprValue` returns must be conditional on the value's emission yielding
a non-final descriptor, exactly as `FxReturnStatement::Emit` itself tests
`!out.Final` (codegen.cpp:6151). -/
inductive RetValue where
  | noValue
  | callValue (c : VMCall)
  | exprValue (e : FxExpr)

/-- The `ReturnProto` step of `FxReturnStatement::Resolve`
(codegen.cpp:6118-6137): on a call value it is
`FxVMFunctionCall::ReturnProto`, which sets `EmitTail`; the base
`FxExpression::ReturnProto` (codegen.cpp:316-328) builds a prototype and
sets nothing. -/
def fxReturnStatementResolve : RetValue → RetValue
  | .callValue c => .callValue (vmCallReturnProto c)
  | v => v

/-- `FxReturnStatement::Emit` (codegen.cpp:6139-6170). -/
def fxReturnStatementEmit (bu : VMFunctionBuilder) (v : RetValue) :
    VMFunctionBuilder × ExpEmit :=
  match v with
  | .noValue =>
    -- if we return nothing, use a regular RET opcode
    let bu := (bu.emit (mkIns .OP_RET RET_FINAL REGT_NIL 0)).1
    (bu, { final := true })
  | .callValue c =>
    let (bu, out) := vmCallEmit bu c
    -- a function call that simplified itself into a tail call emits nothing
    let bu :=
      if ¬ out.final then
        if c.func.retRegTypes.isEmpty then
          -- Value->ValueType == TypeVoid: nothing is returned
          (bu.emit (mkIns .OP_RET RET_FINAL REGT_NIL 0)).1
        else
          (bu.emit (mkIns .OP_RET RET_FINAL
            ((out.regType : Int) + (if out.konst then (REGT_KONST : Int) else 0))
            out.regNum)).1
      else bu
    (bu, { out with final := true })
  | .exprValue e =>
    let (bu, out) := emitExpr e bu
    let bu :=
      if ¬ out.final then
        if e.valueType = .tVoid then
          (bu.emit (mkIns .OP_RET RET_FINAL REGT_NIL 0)).1
        else
          (bu.emit (mkIns .OP_RET RET_FINAL
            ((out.regType : Int) + (if out.konst then (REGT_KONST : Int) else 0))
            out.regNum)).1
      else bu
    (bu, { out with final := true })

/-- Number of instructions with the given opcode. -/
def countOp (o : Opcode) (code : List Instr) : Nat :=
  (code.filter fun i => i.op = o).length

/-- The `NAME_Clamp` case of `FxFunctionCall::Resolve`
(codegen.cpp:4839-4851), for a three-argument `clamp(x, lo, hi)` (the
`CheckArgSize(_, _, 3, 3, _)` guard passed):
`pass` is sized to 2 and filled with the first two arguments, `pass[0]`
is replaced by a max node over them, `pass[1]` by the third argument —
and then `func` is built as a min node over `*ArgList`, the original
three-argument list, not over `pass`. -/
def clampLowering (a0 a1 a2 : FxExpr) : FxExpr :=
  let pass0 := FxExpr.fxMinMax .nameMax .tVoid [a0, a1]
  let pass1 := a2
  let _ := pass0
  let _ := pass1
  FxExpr.fxMinMax .nameMin .tVoid [a0, a1, a2]

/-- The intermediate max node the clamp lowering constructs
(codegen.cpp:4846). -/
def clampIntermediateMax (a0 a1 : FxExpr) : FxExpr :=
  .fxMinMax .nameMax .tVoid [a0, a1]

mutual

/-- Number of subterms of `e` syntactically equal to `t`. -/
def countOcc (t : FxExpr) (e : FxExpr) : Nat :=
  (if FxExpr.beq e t then 1 else 0) +
  (match e with
   | .fxBoolCast b => countOcc t b
   | .fxIntCast b _ => countOcc t b
   | .fxFloatCast b => countOcc t b
   | .fxBinaryLogical _ l r => countOcc t l + countOcc t r
   | .fxAddSub _ _ l r => countOcc t l + countOcc t r
   | .fxMulDiv _ _ l r => countOcc t l + countOcc t r
   | .fxLtGtEq _ l r => countOcc t l + countOcc t r
   | .fxMinMax _ _ cs => countOccList t cs
   | _ => 0)

/-- Sum of `countOcc` over a list of subtrees. -/
def countOccList (t : FxExpr) : List FxExpr → Nat
  | [] => 0
  | c :: cs => countOcc t c + countOccList t cs

end

/-- The compilation pipeline for one expression: resolution, then — only
when resolution succeeded — emission (spec 7: a function whose body fails
to resolve never proceeds to emission). -/
def compileExpr (e : FxExpr) (bu : VMFunctionBuilder) :
    Option (VMFunctionBuilder × ExpEmit) :=
  match resolve e with
  | (_, none) => none
  | (_, some e2) => some (emitExpr e2 bu)

/-- The builder state after emitting `(a + b) <>= c` over three int
locals (registers 0-2, the allocator's high-water mark starting past
them) and then freeing the expression's result descriptor, as the
enclosing statement does (`FxSequence::Emit`, codegen.cpp:5513-5522). -/
def ltGtEqLeakExample : VMFunctionBuilder :=
  let e : FxExpr := .fxLtGtEq .tSInt32
    (.fxAddSub .add .tSInt32 (.fxLocalVariable .tSInt32 0) (.fxLocalVariable .tSInt32 1))
    (.fxLocalVariable .tSInt32 2)
  let r := emitExpr e { intRegs := { next := 3 } }
  r.2.free r.1

/-- Preservation predicate for C9: the number of `OP_TAIL_K`, `OP_CALL_K`,
`OP_RET` and `OP_RETI` instructions in the builder is unchanged between two
code snapshots.  Used to show sub-expression emission never emits
call/return opcodes. -/
def callOpsPreserved (c0 c1 : List Instr) : Prop :=
  countOp .OP_TAIL_K c1 = countOp .OP_TAIL_K c0 ∧
  countOp .OP_CALL_K c1 = countOp .OP_CALL_K c0 ∧
  countOp .OP_RET c1 = countOp .OP_RET c0 ∧
  countOp .OP_RETI c1 = countOp .OP_RETI c0

/-! ### Shared lemmas about the builder primitives -/

theorem countOp_append (o : Opcode) (a b : List Instr) :
    countOp o (a ++ b) = countOp o a + countOp o b := by
  simp [countOp, List.filter_append]

theorem countOp_patchA (o : Opcode) (c : List Instr) (l : Nat) (a : Int) :
    countOp o (patchA c l a) = countOp o c := by
  induction c generalizing l with
  | nil => simp [patchA]
  | cons i rest ih =>
    cases l with
    | zero =>
      simp [patchA, countOp, List.filter_cons]
      split <;> simp
    | succ l =>
      have h := ih l
      simp [patchA, countOp, List.filter_cons] at h ⊢
      split <;> simp [h]

theorem setRegs_code (bu : VMFunctionBuilder) (cls : Nat) (ra : RegAvail) :
    (bu.setRegs cls ra).code = bu.code := by
  unfold VMFunctionBuilder.setRegs
  split_ifs <;> rfl

theorem free_code (e : ExpEmit) (bu : VMFunctionBuilder) :
    (e.free bu).code = bu.code := by
  unfold ExpEmit.free
  split_ifs <;> simp [setRegs_code]

theorem regGet_code (bu : VMFunctionBuilder) (cls : Nat) :
    (bu.regGet cls).1.code = bu.code := by
  unfold VMFunctionBuilder.regGet
  rcases h : (bu.regs cls).get1 with ⟨ra, n⟩
  simp [setRegs_code]

theorem newExpEmit_code (bu : VMFunctionBuilder) (ty : Nat) :
    (newExpEmit bu ty).1.code = bu.code := by
  unfold newExpEmit
  rcases h : bu.regGet ty with ⟨bu2, n⟩
  have : bu2.code = bu.code := by
    have := regGet_code bu ty
    rw [h] at this
    exact this
  simp [this]

theorem newExpEmit_snd (bu : VMFunctionBuilder) (ty : Nat) :
    (newExpEmit bu ty).2 = { regNum := (bu.regGet ty).2, regType := ty } := by
  unfold newExpEmit
  rcases h : bu.regGet ty with ⟨bu2, n⟩
  simp

theorem emit_code (bu : VMFunctionBuilder) (i : Instr) :
    (bu.emit i).1.code = bu.code ++ [i] := rfl

theorem backpatch_countOp (o : Opcode) (bu : VMFunctionBuilder) (l t : Nat) :
    countOp o (bu.backpatch l t).code = countOp o bu.code := by
  simp [VMFunctionBuilder.backpatch, countOp_patchA]

/-! ### Lemmas for computing with `ResM` -/

theorem resmPure (a : α) : (pure a : ResM α) = ([], some a) := rfl

theorem resmBindNone (ms : List Msg) (f : α → ResM β) :
    ((((ms, none) : ResM α) >>= f : ResM β)) = (ms, none) := rfl

theorem resmBindSome (ms : List Msg) (a : α) (f : α → ResM β) :
    ((((ms, some a) : ResM α) >>= f : ResM β)) = (ms ++ (f a).1, (f a).2) := rfl

theorem countOp_nil (o : Opcode) : countOp o [] = 0 := rfl

theorem countOp_cons (o : Opcode) (i : Instr) (rest : List Instr) :
    countOp o (i :: rest) = (if i.op = o then 1 else 0) + countOp o rest := by
  simp [countOp, List.filter_cons]
  split <;> simp [Nat.add_comm]

theorem countOp_single (o : Opcode) (i : Instr) :
    countOp o [i] = if i.op = o then 1 else 0 := by
  simp [countOp, List.filter]
  split <;> simp_all

theorem newExpEmit_final (bu : VMFunctionBuilder) (ty : Nat) :
    (newExpEmit bu ty).2.final = false := by
  unfold newExpEmit
  rcases h : bu.regGet ty with ⟨bu2, n⟩
  simp

theorem getConstantInt_code (bu : VMFunctionBuilder) (v : Int) :
    (bu.getConstantInt v).1.code = bu.code := by
  unfold VMFunctionBuilder.getConstantInt
  split <;> rfl

theorem getConstantFloat_code (bu : VMFunctionBuilder) (v : Rat) :
    (bu.getConstantFloat v).1.code = bu.code := by
  unfold VMFunctionBuilder.getConstantFloat
  split <;> rfl

theorem getConstantAddress_code (bu : VMFunctionBuilder) (p : Option Nat) (t : ATag) :
    (bu.getConstantAddress p t).1.code = bu.code := by
  unfold VMFunctionBuilder.getConstantAddress
  split <;> rfl

theorem backpatchToHere_countOp (o : Opcode) (bu : VMFunctionBuilder) (l : Nat) :
    countOp o (bu.backpatchToHere l).code = countOp o bu.code := by
  simp [VMFunctionBuilder.backpatchToHere, backpatch_countOp]

theorem countOp_emit_tail (bu : VMFunctionBuilder) (i : Instr) (h : i.op ≠ .OP_TAIL_K) :
    countOp .OP_TAIL_K (bu.emit i).1.code = countOp .OP_TAIL_K bu.code := by
  simp [emit_code, countOp_append, countOp_single, h]

theorem countOp_emit_call (bu : VMFunctionBuilder) (i : Instr) (h : i.op ≠ .OP_CALL_K) :
    countOp .OP_CALL_K (bu.emit i).1.code = countOp .OP_CALL_K bu.code := by
  simp [emit_code, countOp_append, countOp_single, h]

theorem countOp_emit_ret (bu : VMFunctionBuilder) (i : Instr) (h : i.op ≠ .OP_RET) :
    countOp .OP_RET (bu.emit i).1.code = countOp .OP_RET bu.code := by
  simp [emit_code, countOp_append, countOp_single, h]

theorem countOp_emit_reti (bu : VMFunctionBuilder) (i : Instr) (h : i.op ≠ .OP_RETI) :
    countOp .OP_RETI (bu.emit i).1.code = countOp .OP_RETI bu.code := by
  simp [emit_code, countOp_append, countOp_single, h]

theorem ltGtEqInstr_ne_tail (u f k1 k2 le : Bool) :
    ltGtEqInstr u f k1 k2 le ≠ .OP_TAIL_K := by
  cases u <;> cases f <;> cases k1 <;> cases k2 <;> cases le <;> decide

theorem ltGtEqInstr_ne_call (u f k1 k2 le : Bool) :
    ltGtEqInstr u f k1 k2 le ≠ .OP_CALL_K := by
  cases u <;> cases f <;> cases k1 <;> cases k2 <;> cases le <;> decide

theorem ltGtEqInstr_ne_ret (u f k1 k2 le : Bool) :
    ltGtEqInstr u f k1 k2 le ≠ .OP_RET := by
  cases u <;> cases f <;> cases k1 <;> cases k2 <;> cases le <;> decide

theorem ltGtEqInstr_ne_reti (u f k1 k2 le : Bool) :
    ltGtEqInstr u f k1 k2 le ≠ .OP_RETI := by
  cases u <;> cases f <;> cases k1 <;> cases k2 <;> cases le <;> decide

theorem minMaxCmpOpcode_ne_tail (k : MinMaxKind) (f c : Bool) :
    minMaxCmpOpcode k f c ≠ .OP_TAIL_K := by
  cases k <;> cases f <;> cases c <;> decide

theorem minMaxCmpOpcode_ne_call (k : MinMaxKind) (f c : Bool) :
    minMaxCmpOpcode k f c ≠ .OP_CALL_K := by
  cases k <;> cases f <;> cases c <;> decide

theorem minMaxCmpOpcode_ne_ret (k : MinMaxKind) (f c : Bool) :
    minMaxCmpOpcode k f c ≠ .OP_RET := by
  cases k <;> cases f <;> cases c <;> decide

theorem minMaxCmpOpcode_ne_reti (k : MinMaxKind) (f c : Bool) :
    minMaxCmpOpcode k f c ≠ .OP_RETI := by
  cases k <;> cases f <;> cases c <;> decide

set_option maxHeartbeats 2000000 in
/-- No `emitExpr`/`minMaxEmitRest` call emits a call or return opcode, and
the resulting descriptor never carries the `final` flag: only
`FxReturnStatement::Emit` and the tail-call path of `FxVMFunctionCall::Emit`
produce `OP_RET`/`OP_RETI`/`OP_TAIL_K`/`OP_CALL_K`. -/
theorem emit_preserves_callops :
    ∀ (e : FxExpr) (bu : VMFunctionBuilder),
      callOpsPreserved bu.code (emitExpr e bu).1.code ∧ (emitExpr e bu).2.final = false := by
  have main :=
    emitExpr.induct
      (fun e bu => callOpsPreserved bu.code (emitExpr e bu).1.code ∧ (emitExpr e bu).2.final = false)
      (fun kind vt best cs bu =>
        callOpsPreserved bu.code (minMaxEmitRest kind vt best cs bu).1.code
          ∧ (minMaxEmitRest kind vt best cs bu).2 = best)
  intro e bu
  apply main
  · intros
    clear main
    try cases ‹AddOp›
    try cases ‹MulOp›
    all_goals simp_all only [emitExpr, minMaxEmitRest, Prod.ext_iff]
    all_goals try casesm* _ ∧ _
    all_goals try subst_vars
    all_goals try unfold_let at *
    all_goals simp_all [callOpsPreserved, countOp_emit_tail, countOp_emit_call, countOp_emit_ret,
      countOp_emit_reti, free_code, setRegs_code, regGet_code, newExpEmit_code, newExpEmit_snd,
      newExpEmit_final, getConstantInt_code, getConstantFloat_code, getConstantAddress_code,
      backpatch_countOp, backpatchToHere_countOp, mkIns, emitLoad, fxAddSubEmitCore,
      fxMulDivEmitCore, fxLtGtEqEmitCore, ltGtEqInstr_ne_tail, ltGtEqInstr_ne_call,
      ltGtEqInstr_ne_ret, ltGtEqInstr_ne_reti, minMaxCmpOpcode_ne_tail, minMaxCmpOpcode_ne_call,
      minMaxCmpOpcode_ne_ret, minMaxCmpOpcode_ne_reti, countOp_append, countOp_cons, countOp_nil,
      countOp_single, emit_code]
    all_goals try (split_ifs <;> simp_all [callOpsPreserved, countOp_emit_tail, countOp_emit_call, countOp_emit_ret,
      countOp_emit_reti, free_code, setRegs_code, regGet_code, newExpEmit_code, newExpEmit_snd,
      newExpEmit_final, getConstantInt_code, getConstantFloat_code, getConstantAddress_code,
      backpatch_countOp, backpatchToHere_countOp, mkIns, ltGtEqInstr_ne_tail, ltGtEqInstr_ne_call,
      ltGtEqInstr_ne_ret, ltGtEqInstr_ne_reti, minMaxCmpOpcode_ne_tail, minMaxCmpOpcode_ne_call,
      minMaxCmpOpcode_ne_ret, minMaxCmpOpcode_ne_reti, countOp_append, countOp_cons, countOp_nil,
      countOp_single, emit_code])
    all_goals try (split <;> simp_all [callOpsPreserved, countOp_emit_tail, countOp_emit_call, countOp_emit_ret,
      countOp_emit_reti, free_code, setRegs_code, regGet_code, newExpEmit_code, newExpEmit_snd,
      newExpEmit_final, getConstantInt_code, getConstantFloat_code, getConstantAddress_code,
      backpatch_countOp, backpatchToHere_countOp, mkIns, ltGtEqInstr_ne_tail, ltGtEqInstr_ne_call,
      ltGtEqInstr_ne_ret, ltGtEqInstr_ne_reti, minMaxCmpOpcode_ne_tail, minMaxCmpOpcode_ne_call,
      minMaxCmpOpcode_ne_ret, minMaxCmpOpcode_ne_reti, countOp_append, countOp_cons, countOp_nil,
      countOp_single, emit_code])
    all_goals try omega
  · intros
    clear main
    try cases ‹AddOp›
    try cases ‹MulOp›
    all_goals simp_all only [emitExpr, minMaxEmitRest, Prod.ext_iff]
    all_goals try casesm* _ ∧ _
    all_goals try subst_vars
    all_goals try unfold_let at *
    all_goals simp_all [callOpsPreserved, countOp_emit_tail, countOp_emit_call, countOp_emit_ret,
      countOp_emit_reti, free_code, setRegs_code, regGet_code, newExpEmit_code, newExpEmit_snd,
      newExpEmit_final, getConstantInt_code, getConstantFloat_code, getConstantAddress_code,
      backpatch_countOp, backpatchToHere_countOp, mkIns, emitLoad, fxAddSubEmitCore,
      fxMulDivEmitCore, fxLtGtEqEmitCore, ltGtEqInstr_ne_tail, ltGtEqInstr_ne_call,
      ltGtEqInstr_ne_ret, ltGtEqInstr_ne_reti, minMaxCmpOpcode_ne_tail, minMaxCmpOpcode_ne_call,
      minMaxCmpOpcode_ne_ret, minMaxCmpOpcode_ne_reti, countOp_append, countOp_cons, countOp_nil,
      countOp_single, emit_code]
    all_goals try (split_ifs <;> simp_all [callOpsPreserved, countOp_emit_tail, countOp_emit_call, countOp_emit_ret,
      countOp_emit_reti, free_code, setRegs_code, regGet_code, newExpEmit_code, newExpEmit_snd,
      newExpEmit_final, getConstantInt_code, getConstantFloat_code, getConstantAddress_code,
      backpatch_countOp, backpatchToHere_countOp, mkIns, ltGtEqInstr_ne_tail, ltGtEqInstr_ne_call,
      ltGtEqInstr_ne_ret, ltGtEqInstr_ne_reti, minMaxCmpOpcode_ne_tail, minMaxCmpOpcode_ne_call,
      minMaxCmpOpcode_ne_ret, minMaxCmpOpcode_ne_reti, countOp_append, countOp_cons, countOp_nil,
      countOp_single, emit_code])
    all_goals try (split <;> simp_all [callOpsPreserved, countOp_emit_tail, countOp_emit_call, countOp_emit_ret,
      countOp_emit_reti, free_code, setRegs_code, regGet_code, newExpEmit_code, newExpEmit_snd,
      newExpEmit_final, getConstantInt_code, getConstantFloat_code, getConstantAddress_code,
      backpatch_countOp, backpatchToHere_countOp, mkIns, ltGtEqInstr_ne_tail, ltGtEqInstr_ne_call,
      ltGtEqInstr_ne_ret, ltGtEqInstr_ne_reti, minMaxCmpOpcode_ne_tail, minMaxCmpOpcode_ne_call,
      minMaxCmpOpcode_ne_ret, minMaxCmpOpcode_ne_reti, countOp_append, countOp_cons, countOp_nil,
      countOp_single, emit_code])
    all_goals try omega
  · intros
    clear main
    try cases ‹AddOp›
    try cases ‹MulOp›
    all_goals simp_all only [emitExpr, minMaxEmitRest, Prod.ext_iff]
    all_goals try casesm* _ ∧ _
    all_goals try subst_vars
    all_goals try unfold_let at *
    all_goals simp_all [callOpsPreserved, countOp_emit_tail, countOp_emit_call, countOp_emit_ret,
      countOp_emit_reti, free_code, setRegs_code, regGet_code, newExpEmit_code, newExpEmit_snd,
      newExpEmit_final, getConstantInt_code, getConstantFloat_code, getConstantAddress_code,
      backpatch_countOp, backpatchToHere_countOp, mkIns, emitLoad, fxAddSubEmitCore,
      fxMulDivEmitCore, fxLtGtEqEmitCore, ltGtEqInstr_ne_tail, ltGtEqInstr_ne_call,
      ltGtEqInstr_ne_ret, ltGtEqInstr_ne_reti, minMaxCmpOpcode_ne_tail, minMaxCmpOpcode_ne_call,
      minMaxCmpOpcode_ne_ret, minMaxCmpOpcode_ne_reti, countOp_append, countOp_cons, countOp_nil,
      countOp_single, emit_code]
    all_goals try (split_ifs <;> simp_all [callOpsPreserved, countOp_emit_tail, countOp_emit_call, countOp_emit_ret,
      countOp_emit_reti, free_code, setRegs_code, regGet_code, newExpEmit_code, newExpEmit_snd,
      newExpEmit_final, getConstantInt_code, getConstantFloat_code, getConstantAddress_code,
      backpatch_countOp, backpatchToHere_countOp, mkIns, ltGtEqInstr_ne_tail, ltGtEqInstr_ne_call,
      ltGtEqInstr_ne_ret, ltGtEqInstr_ne_reti, minMaxCmpOpcode_ne_tail, minMaxCmpOpcode_ne_call,
      minMaxCmpOpcode_ne_ret, minMaxCmpOpcode_ne_reti, countOp_append, countOp_cons, countOp_nil,
      countOp_single, emit_code])
    all_goals try (split <;> simp_all [callOpsPreserved, countOp_emit_tail, countOp_emit_call, countOp_emit_ret,
      countOp_emit_reti, free_code, setRegs_code, regGet_code, newExpEmit_code, newExpEmit_snd,
      newExpEmit_final, getConstantInt_code, getConstantFloat_code, getConstantAddress_code,
      backpatch_countOp, backpatchToHere_countOp, mkIns, ltGtEqInstr_ne_tail, ltGtEqInstr_ne_call,
      ltGtEqInstr_ne_ret, ltGtEqInstr_ne_reti, minMaxCmpOpcode_ne_tail, minMaxCmpOpcode_ne_call,
      minMaxCmpOpcode_ne_ret, minMaxCmpOpcode_ne_reti, countOp_append, countOp_cons, countOp_nil,
      countOp_single, emit_code])
    all_goals try omega
  · intros
    clear main
    try cases ‹AddOp›
    try cases ‹MulOp›
    all_goals simp_all only [emitExpr, minMaxEmitRest, Prod.ext_iff]
    all_goals try casesm* _ ∧ _
    all_goals try subst_vars
    all_goals try unfold_let at *
    all_goals simp_all [callOpsPreserved, countOp_emit_tail, countOp_emit_call, countOp_emit_ret,
      countOp_emit_reti, free_code, setRegs_code, regGet_code, newExpEmit_code, newExpEmit_snd,
      newExpEmit_final, getConstantInt_code, getConstantFloat_code, getConstantAddress_code,
      backpatch_countOp, backpatchToHere_countOp, mkIns, emitLoad, fxAddSubEmitCore,
      fxMulDivEmitCore, fxLtGtEqEmitCore, ltGtEqInstr_ne_tail, ltGtEqInstr_ne_call,
      ltGtEqInstr_ne_ret, ltGtEqInstr_ne_reti, minMaxCmpOpcode_ne_tail, minMaxCmpOpcode_ne_call,
      minMaxCmpOpcode_ne_ret, minMaxCmpOpcode_ne_reti, countOp_append, countOp_cons, countOp_nil,
      countOp_single, emit_code]
    all_goals try (split_ifs <;> simp_all [callOpsPreserved, countOp_emit_tail, countOp_emit_call, countOp_emit_ret,
      countOp_emit_reti, free_code, setRegs_code, regGet_code, newExpEmit_code, newExpEmit_snd,
      newExpEmit_final, getConstantInt_code, getConstantFloat_code, getConstantAddress_code,
      backpatch_countOp, backpatchToHere_countOp, mkIns, ltGtEqInstr_ne_tail, ltGtEqInstr_ne_call,
      ltGtEqInstr_ne_ret, ltGtEqInstr_ne_reti, minMaxCmpOpcode_ne_tail, minMaxCmpOpcode_ne_call,
      minMaxCmpOpcode_ne_ret, minMaxCmpOpcode_ne_reti, countOp_append, countOp_cons, countOp_nil,
      countOp_single, emit_code])
    all_goals try (split <;> simp_all [callOpsPreserved, countOp_emit_tail, countOp_emit_call, countOp_emit_ret,
      countOp_emit_reti, free_code, setRegs_code, regGet_code, newExpEmit_code, newExpEmit_snd,
      newExpEmit_final, getConstantInt_code, getConstantFloat_code, getConstantAddress_code,
      backpatch_countOp, backpatchToHere_countOp, mkIns, ltGtEqInstr_ne_tail, ltGtEqInstr_ne_call,
      ltGtEqInstr_ne_ret, ltGtEqInstr_ne_reti, minMaxCmpOpcode_ne_tail, minMaxCmpOpcode_ne_call,
      minMaxCmpOpcode_ne_ret, minMaxCmpOpcode_ne_reti, countOp_append, countOp_cons, countOp_nil,
      countOp_single, emit_code])
    all_goals try omega
  · intros
    clear main
    try cases ‹AddOp›
    try cases ‹MulOp›
    all_goals simp_all only [emitExpr, minMaxEmitRest, Prod.ext_iff]
    all_goals try casesm* _ ∧ _
    all_goals try subst_vars
    all_goals try unfold_let at *
    all_goals simp_all [callOpsPreserved, countOp_emit_tail, countOp_emit_call, countOp_emit_ret,
      countOp_emit_reti, free_code, setRegs_code, regGet_code, newExpEmit_code, newExpEmit_snd,
      newExpEmit_final, getConstantInt_code, getConstantFloat_code, getConstantAddress_code,
      backpatch_countOp, backpatchToHere_countOp, mkIns, emitLoad, fxAddSubEmitCore,
      fxMulDivEmitCore, fxLtGtEqEmitCore, ltGtEqInstr_ne_tail, ltGtEqInstr_ne_call,
      ltGtEqInstr_ne_ret, ltGtEqInstr_ne_reti, minMaxCmpOpcode_ne_tail, minMaxCmpOpcode_ne_call,
      minMaxCmpOpcode_ne_ret, minMaxCmpOpcode_ne_reti, countOp_append, countOp_cons, countOp_nil,
      countOp_single, emit_code]
    all_goals try (split_ifs <;> simp_all [callOpsPreserved, countOp_emit_tail, countOp_emit_call, countOp_emit_ret,
      countOp_emit_reti, free_code, setRegs_code, regGet_code, newExpEmit_code, newExpEmit_snd,
      newExpEmit_final, getConstantInt_code, getConstantFloat_code, getConstantAddress_code,
      backpatch_countOp, backpatchToHere_countOp, mkIns, ltGtEqInstr_ne_tail, ltGtEqInstr_ne_call,
      ltGtEqInstr_ne_ret, ltGtEqInstr_ne_reti, minMaxCmpOpcode_ne_tail, minMaxCmpOpcode_ne_call,
      minMaxCmpOpcode_ne_ret, minMaxCmpOpcode_ne_reti, countOp_append, countOp_cons, countOp_nil,
      countOp_single, emit_code])
    all_goals try (split <;> simp_all [callOpsPreserved, countOp_emit_tail, countOp_emit_call, countOp_emit_ret,
      countOp_emit_reti, free_code, setRegs_code, regGet_code, newExpEmit_code, newExpEmit_snd,
      newExpEmit_final, getConstantInt_code, getConstantFloat_code, getConstantAddress_code,
      backpatch_countOp, backpatchToHere_countOp, mkIns, ltGtEqInstr_ne_tail, ltGtEqInstr_ne_call,
      ltGtEqInstr_ne_ret, ltGtEqInstr_ne_reti, minMaxCmpOpcode_ne_tail, minMaxCmpOpcode_ne_call,
      minMaxCmpOpcode_ne_ret, minMaxCmpOpcode_ne_reti, countOp_append, countOp_cons, countOp_nil,
      countOp_single, emit_code])
    all_goals try omega
  · intros
    clear main
    try cases ‹AddOp›
    try cases ‹MulOp›
    all_goals simp_all only [emitExpr, minMaxEmitRest, Prod.ext_iff]
    all_goals try casesm* _ ∧ _
    all_goals try subst_vars
    all_goals try unfold_let at *
    all_goals simp_all [callOpsPreserved, countOp_emit_tail, countOp_emit_call, countOp_emit_ret,
      countOp_emit_reti, free_code, setRegs_code, regGet_code, newExpEmit_code, newExpEmit_snd,
      newExpEmit_final, getConstantInt_code, getConstantFloat_code, getConstantAddress_code,
      backpatch_countOp, backpatchToHere_countOp, mkIns, emitLoad, fxAddSubEmitCore,
      fxMulDivEmitCore, fxLtGtEqEmitCore, ltGtEqInstr_ne_tail, ltGtEqInstr_ne_call,
      ltGtEqInstr_ne_ret, ltGtEqInstr_ne_reti, minMaxCmpOpcode_ne_tail, minMaxCmpOpcode_ne_call,
      minMaxCmpOpcode_ne_ret, minMaxCmpOpcode_ne_reti, countOp_append, countOp_cons, countOp_nil,
      countOp_single, emit_code]
    all_goals try (split_ifs <;> simp_all [callOpsPreserved, countOp_emit_tail, countOp_emit_call, countOp_emit_ret,
      countOp_emit_reti, free_code, setRegs_code, regGet_code, newExpEmit_code, newExpEmit_snd,
      newExpEmit_final, getConstantInt_code, getConstantFloat_code, getConstantAddress_code,
      backpatch_countOp, backpatchToHere_countOp, mkIns, ltGtEqInstr_ne_tail, ltGtEqInstr_ne_call,
      ltGtEqInstr_ne_ret, ltGtEqInstr_ne_reti, minMaxCmpOpcode_ne_tail, minMaxCmpOpcode_ne_call,
      minMaxCmpOpcode_ne_ret, minMaxCmpOpcode_ne_reti, countOp_append, countOp_cons, countOp_nil,
      countOp_single, emit_code])
    all_goals try (split <;> simp_all [callOpsPreserved, countOp_emit_tail, countOp_emit_call, countOp_emit_ret,
      countOp_emit_reti, free_code, setRegs_code, regGet_code, newExpEmit_code, newExpEmit_snd,
      newExpEmit_final, getConstantInt_code, getConstantFloat_code, getConstantAddress_code,
      backpatch_countOp, backpatchToHere_countOp, mkIns, ltGtEqInstr_ne_tail, ltGtEqInstr_ne_call,
      ltGtEqInstr_ne_ret, ltGtEqInstr_ne_reti, minMaxCmpOpcode_ne_tail, minMaxCmpOpcode_ne_call,
      minMaxCmpOpcode_ne_ret, minMaxCmpOpcode_ne_reti, countOp_append, countOp_cons, countOp_nil,
      countOp_single, emit_code])
    all_goals try omega
  · intros
    clear main
    try cases ‹AddOp›
    try cases ‹MulOp›
    all_goals simp_all only [emitExpr, minMaxEmitRest, Prod.ext_iff]
    all_goals try casesm* _ ∧ _
    all_goals try subst_vars
    all_goals try unfold_let at *
    all_goals simp_all [callOpsPreserved, countOp_emit_tail, countOp_emit_call, countOp_emit_ret,
      countOp_emit_reti, free_code, setRegs_code, regGet_code, newExpEmit_code, newExpEmit_snd,
      newExpEmit_final, getConstantInt_code, getConstantFloat_code, getConstantAddress_code,
      backpatch_countOp, backpatchToHere_countOp, mkIns, emitLoad, fxAddSubEmitCore,
      fxMulDivEmitCore, fxLtGtEqEmitCore, ltGtEqInstr_ne_tail, ltGtEqInstr_ne_call,
      ltGtEqInstr_ne_ret, ltGtEqInstr_ne_reti, minMaxCmpOpcode_ne_tail, minMaxCmpOpcode_ne_call,
      minMaxCmpOpcode_ne_ret, minMaxCmpOpcode_ne_reti, countOp_append, countOp_cons, countOp_nil,
      countOp_single, emit_code]
    all_goals try (split_ifs <;> simp_all [callOpsPreserved, countOp_emit_tail, countOp_emit_call, countOp_emit_ret,
      countOp_emit_reti, free_code, setRegs_code, regGet_code, newExpEmit_code, newExpEmit_snd,
      newExpEmit_final, getConstantInt_code, getConstantFloat_code, getConstantAddress_code,
      backpatch_countOp, backpatchToHere_countOp, mkIns, ltGtEqInstr_ne_tail, ltGtEqInstr_ne_call,
      ltGtEqInstr_ne_ret, ltGtEqInstr_ne_reti, minMaxCmpOpcode_ne_tail, minMaxCmpOpcode_ne_call,
      minMaxCmpOpcode_ne_ret, minMaxCmpOpcode_ne_reti, countOp_append, countOp_cons, countOp_nil,
      countOp_single, emit_code])
    all_goals try (split <;> simp_all [callOpsPreserved, countOp_emit_tail, countOp_emit_call, countOp_emit_ret,
      countOp_emit_reti, free_code, setRegs_code, regGet_code, newExpEmit_code, newExpEmit_snd,
      newExpEmit_final, getConstantInt_code, getConstantFloat_code, getConstantAddress_code,
      backpatch_countOp, backpatchToHere_countOp, mkIns, ltGtEqInstr_ne_tail, ltGtEqInstr_ne_call,
      ltGtEqInstr_ne_ret, ltGtEqInstr_ne_reti, minMaxCmpOpcode_ne_tail, minMaxCmpOpcode_ne_call,
      minMaxCmpOpcode_ne_ret, minMaxCmpOpcode_ne_reti, countOp_append, countOp_cons, countOp_nil,
      countOp_single, emit_code])
    all_goals try omega
  · intros
    clear main
    try cases ‹AddOp›
    try cases ‹MulOp›
    all_goals simp_all only [emitExpr, minMaxEmitRest, Prod.ext_iff]
    all_goals try casesm* _ ∧ _
    all_goals try subst_vars
    all_goals try unfold_let at *
    all_goals simp_all [callOpsPreserved, countOp_emit_tail, countOp_emit_call, countOp_emit_ret,
      countOp_emit_reti, free_code, setRegs_code, regGet_code, newExpEmit_code, newExpEmit_snd,
      newExpEmit_final, getConstantInt_code, getConstantFloat_code, getConstantAddress_code,
      backpatch_countOp, backpatchToHere_countOp, mkIns, emitLoad, fxAddSubEmitCore,
      fxMulDivEmitCore, fxLtGtEqEmitCore, ltGtEqInstr_ne_tail, ltGtEqInstr_ne_call,
      ltGtEqInstr_ne_ret, ltGtEqInstr_ne_reti, minMaxCmpOpcode_ne_tail, minMaxCmpOpcode_ne_call,
      minMaxCmpOpcode_ne_ret, minMaxCmpOpcode_ne_reti, countOp_append, countOp_cons, countOp_nil,
      countOp_single, emit_code]
    all_goals try (split_ifs <;> simp_all [callOpsPreserved, countOp_emit_tail, countOp_emit_call, countOp_emit_ret,
      countOp_emit_reti, free_code, setRegs_code, regGet_code, newExpEmit_code, newExpEmit_snd,
      newExpEmit_final, getConstantInt_code, getConstantFloat_code, getConstantAddress_code,
      backpatch_countOp, backpatchToHere_countOp, mkIns, ltGtEqInstr_ne_tail, ltGtEqInstr_ne_call,
      ltGtEqInstr_ne_ret, ltGtEqInstr_ne_reti, minMaxCmpOpcode_ne_tail, minMaxCmpOpcode_ne_call,
      minMaxCmpOpcode_ne_ret, minMaxCmpOpcode_ne_reti, countOp_append, countOp_cons, countOp_nil,
      countOp_single, emit_code])
    all_goals try (split <;> simp_all [callOpsPreserved, countOp_emit_tail, countOp_emit_call, countOp_emit_ret,
      countOp_emit_reti, free_code, setRegs_code, regGet_code, newExpEmit_code, newExpEmit_snd,
      newExpEmit_final, getConstantInt_code, getConstantFloat_code, getConstantAddress_code,
      backpatch_countOp, backpatchToHere_countOp, mkIns, ltGtEqInstr_ne_tail, ltGtEqInstr_ne_call,
      ltGtEqInstr_ne_ret, ltGtEqInstr_ne_reti, minMaxCmpOpcode_ne_tail, minMaxCmpOpcode_ne_call,
      minMaxCmpOpcode_ne_ret, minMaxCmpOpcode_ne_reti, countOp_append, countOp_cons, countOp_nil,
      countOp_single, emit_code])
    all_goals try omega
  · intros
    clear main
    try cases ‹AddOp›
    try cases ‹MulOp›
    all_goals simp_all only [emitExpr, minMaxEmitRest, Prod.ext_iff]
    all_goals try casesm* _ ∧ _
    all_goals try subst_vars
    all_goals try unfold_let at *
    all_goals simp_all [callOpsPreserved, countOp_emit_tail, countOp_emit_call, countOp_emit_ret,
      countOp_emit_reti, free_code, setRegs_code, regGet_code, newExpEmit_code, newExpEmit_snd,
      newExpEmit_final, getConstantInt_code, getConstantFloat_code, getConstantAddress_code,
      backpatch_countOp, backpatchToHere_countOp, mkIns, emitLoad, fxAddSubEmitCore,
      fxMulDivEmitCore, fxLtGtEqEmitCore, ltGtEqInstr_ne_tail, ltGtEqInstr_ne_call,
      ltGtEqInstr_ne_ret, ltGtEqInstr_ne_reti, minMaxCmpOpcode_ne_tail, minMaxCmpOpcode_ne_call,
      minMaxCmpOpcode_ne_ret, minMaxCmpOpcode_ne_reti, countOp_append, countOp_cons, countOp_nil,
      countOp_single, emit_code]
    all_goals try (split_ifs <;> simp_all [callOpsPreserved, countOp_emit_tail, countOp_emit_call, countOp_emit_ret,
      countOp_emit_reti, free_code, setRegs_code, regGet_code, newExpEmit_code, newExpEmit_snd,
      newExpEmit_final, getConstantInt_code, getConstantFloat_code, getConstantAddress_code,
      backpatch_countOp, backpatchToHere_countOp, mkIns, ltGtEqInstr_ne_tail, ltGtEqInstr_ne_call,
      ltGtEqInstr_ne_ret, ltGtEqInstr_ne_reti, minMaxCmpOpcode_ne_tail, minMaxCmpOpcode_ne_call,
      minMaxCmpOpcode_ne_ret, minMaxCmpOpcode_ne_reti, countOp_append, countOp_cons, countOp_nil,
      countOp_single, emit_code])
    all_goals try (split <;> simp_all [callOpsPreserved, countOp_emit_tail, countOp_emit_call, countOp_emit_ret,
      countOp_emit_reti, free_code, setRegs_code, regGet_code, newExpEmit_code, newExpEmit_snd,
      newExpEmit_final, getConstantInt_code, getConstantFloat_code, getConstantAddress_code,
      backpatch_countOp, backpatchToHere_countOp, mkIns, ltGtEqInstr_ne_tail, ltGtEqInstr_ne_call,
      ltGtEqInstr_ne_ret, ltGtEqInstr_ne_reti, minMaxCmpOpcode_ne_tail, minMaxCmpOpcode_ne_call,
      minMaxCmpOpcode_ne_ret, minMaxCmpOpcode_ne_reti, countOp_append, countOp_cons, countOp_nil,
      countOp_single, emit_code])
    all_goals try omega
  · intros
    clear main
    try cases ‹AddOp›
    try cases ‹MulOp›
    all_goals simp_all only [emitExpr, minMaxEmitRest, Prod.ext_iff]
    all_goals try casesm* _ ∧ _
    all_goals try subst_vars
    all_goals try unfold_let at *
    all_goals simp_all [callOpsPreserved, countOp_emit_tail, countOp_emit_call, countOp_emit_ret,
      countOp_emit_reti, free_code, setRegs_code, regGet_code, newExpEmit_code, newExpEmit_snd,
      newExpEmit_final, getConstantInt_code, getConstantFloat_code, getConstantAddress_code,
      backpatch_countOp, backpatchToHere_countOp, mkIns, emitLoad, fxAddSubEmitCore,
      fxMulDivEmitCore, fxLtGtEqEmitCore, ltGtEqInstr_ne_tail, ltGtEqInstr_ne_call,
      ltGtEqInstr_ne_ret, ltGtEqInstr_ne_reti, minMaxCmpOpcode_ne_tail, minMaxCmpOpcode_ne_call,
      minMaxCmpOpcode_ne_ret, minMaxCmpOpcode_ne_reti, countOp_append, countOp_cons, countOp_nil,
      countOp_single, emit_code]
    all_goals try (split_ifs <;> simp_all [callOpsPreserved, countOp_emit_tail, countOp_emit_call, countOp_emit_ret,
      countOp_emit_reti, free_code, setRegs_code, regGet_code, newExpEmit_code, newExpEmit_snd,
      newExpEmit_final, getConstantInt_code, getConstantFloat_code, getConstantAddress_code,
      backpatch_countOp, backpatchToHere_countOp, mkIns, ltGtEqInstr_ne_tail, ltGtEqInstr_ne_call,
      ltGtEqInstr_ne_ret, ltGtEqInstr_ne_reti, minMaxCmpOpcode_ne_tail, minMaxCmpOpcode_ne_call,
      minMaxCmpOpcode_ne_ret, minMaxCmpOpcode_ne_reti, countOp_append, countOp_cons, countOp_nil,
      countOp_single, emit_code])
    all_goals try (split <;> simp_all [callOpsPreserved, countOp_emit_tail, countOp_emit_call, countOp_emit_ret,
      countOp_emit_reti, free_code, setRegs_code, regGet_code, newExpEmit_code, newExpEmit_snd,
      newExpEmit_final, getConstantInt_code, getConstantFloat_code, getConstantAddress_code,
      backpatch_countOp, backpatchToHere_countOp, mkIns, ltGtEqInstr_ne_tail, ltGtEqInstr_ne_call,
      ltGtEqInstr_ne_ret, ltGtEqInstr_ne_reti, minMaxCmpOpcode_ne_tail, minMaxCmpOpcode_ne_call,
      minMaxCmpOpcode_ne_ret, minMaxCmpOpcode_ne_reti, countOp_append, countOp_cons, countOp_nil,
      countOp_single, emit_code])
    all_goals try omega
  · intros
    clear main
    try cases ‹AddOp›
    try cases ‹MulOp›
    all_goals simp_all only [emitExpr, minMaxEmitRest, Prod.ext_iff]
    all_goals try casesm* _ ∧ _
    all_goals try subst_vars
    all_goals try unfold_let at *
    all_goals simp_all [callOpsPreserved, countOp_emit_tail, countOp_emit_call, countOp_emit_ret,
      countOp_emit_reti, free_code, setRegs_code, regGet_code, newExpEmit_code, newExpEmit_snd,
      newExpEmit_final, getConstantInt_code, getConstantFloat_code, getConstantAddress_code,
      backpatch_countOp, backpatchToHere_countOp, mkIns, emitLoad, fxAddSubEmitCore,
      fxMulDivEmitCore, fxLtGtEqEmitCore, ltGtEqInstr_ne_tail, ltGtEqInstr_ne_call,
      ltGtEqInstr_ne_ret, ltGtEqInstr_ne_reti, minMaxCmpOpcode_ne_tail, minMaxCmpOpcode_ne_call,
      minMaxCmpOpcode_ne_ret, minMaxCmpOpcode_ne_reti, countOp_append, countOp_cons, countOp_nil,
      countOp_single, emit_code]
    all_goals try (split_ifs <;> simp_all [callOpsPreserved, countOp_emit_tail, countOp_emit_call, countOp_emit_ret,
      countOp_emit_reti, free_code, setRegs_code, regGet_code, newExpEmit_code, newExpEmit_snd,
      newExpEmit_final, getConstantInt_code, getConstantFloat_code, getConstantAddress_code,
      backpatch_countOp, backpatchToHere_countOp, mkIns, ltGtEqInstr_ne_tail, ltGtEqInstr_ne_call,
      ltGtEqInstr_ne_ret, ltGtEqInstr_ne_reti, minMaxCmpOpcode_ne_tail, minMaxCmpOpcode_ne_call,
      minMaxCmpOpcode_ne_ret, minMaxCmpOpcode_ne_reti, countOp_append, countOp_cons, countOp_nil,
      countOp_single, emit_code])
    all_goals try (split <;> simp_all [callOpsPreserved, countOp_emit_tail, countOp_emit_call, countOp_emit_ret,
      countOp_emit_reti, free_code, setRegs_code, regGet_code, newExpEmit_code, newExpEmit_snd,
      newExpEmit_final, getConstantInt_code, getConstantFloat_code, getConstantAddress_code,
      backpatch_countOp, backpatchToHere_countOp, mkIns, ltGtEqInstr_ne_tail, ltGtEqInstr_ne_call,
      ltGtEqInstr_ne_ret, ltGtEqInstr_ne_reti, minMaxCmpOpcode_ne_tail, minMaxCmpOpcode_ne_call,
      minMaxCmpOpcode_ne_ret, minMaxCmpOpcode_ne_reti, countOp_append, countOp_cons, countOp_nil,
      countOp_single, emit_code])
    all_goals try omega
  · intros
    clear main
    try cases ‹AddOp›
    try cases ‹MulOp›
    all_goals simp_all only [emitExpr, minMaxEmitRest, Prod.ext_iff]
    all_goals try casesm* _ ∧ _
    all_goals try subst_vars
    all_goals try unfold_let at *
    all_goals simp_all [callOpsPreserved, countOp_emit_tail, countOp_emit_call, countOp_emit_ret,
      countOp_emit_reti, free_code, setRegs_code, regGet_code, newExpEmit_code, newExpEmit_snd,
      newExpEmit_final, getConstantInt_code, getConstantFloat_code, getConstantAddress_code,
      backpatch_countOp, backpatchToHere_countOp, mkIns, emitLoad, fxAddSubEmitCore,
      fxMulDivEmitCore, fxLtGtEqEmitCore, ltGtEqInstr_ne_tail, ltGtEqInstr_ne_call,
      ltGtEqInstr_ne_ret, ltGtEqInstr_ne_reti, minMaxCmpOpcode_ne_tail, minMaxCmpOpcode_ne_call,
      minMaxCmpOpcode_ne_ret, minMaxCmpOpcode_ne_reti, countOp_append, countOp_cons, countOp_nil,
      countOp_single, emit_code]
    all_goals try (split_ifs <;> simp_all [callOpsPreserved, countOp_emit_tail, countOp_emit_call, countOp_emit_ret,
      countOp_emit_reti, free_code, setRegs_code, regGet_code, newExpEmit_code, newExpEmit_snd,
      newExpEmit_final, getConstantInt_code, getConstantFloat_code, getConstantAddress_code,
      backpatch_countOp, backpatchToHere_countOp, mkIns, ltGtEqInstr_ne_tail, ltGtEqInstr_ne_call,
      ltGtEqInstr_ne_ret, ltGtEqInstr_ne_reti, minMaxCmpOpcode_ne_tail, minMaxCmpOpcode_ne_call,
      minMaxCmpOpcode_ne_ret, minMaxCmpOpcode_ne_reti, countOp_append, countOp_cons, countOp_nil,
      countOp_single, emit_code])
    all_goals try (split <;> simp_all [callOpsPreserved, countOp_emit_tail, countOp_emit_call, countOp_emit_ret,
      countOp_emit_reti, free_code, setRegs_code, regGet_code, newExpEmit_code, newExpEmit_snd,
      newExpEmit_final, getConstantInt_code, getConstantFloat_code, getConstantAddress_code,
      backpatch_countOp, backpatchToHere_countOp, mkIns, ltGtEqInstr_ne_tail, ltGtEqInstr_ne_call,
      ltGtEqInstr_ne_ret, ltGtEqInstr_ne_reti, minMaxCmpOpcode_ne_tail, minMaxCmpOpcode_ne_call,
      minMaxCmpOpcode_ne_ret, minMaxCmpOpcode_ne_reti, countOp_append, countOp_cons, countOp_nil,
      countOp_single, emit_code])
    all_goals try omega
  · intros
    clear main
    try cases ‹AddOp›
    try cases ‹MulOp›
    all_goals simp_all only [emitExpr, minMaxEmitRest, Prod.ext_iff]
    all_goals try casesm* _ ∧ _
    all_goals try subst_vars
    all_goals try unfold_let at *
    all_goals simp_all [callOpsPreserved, countOp_emit_tail, countOp_emit_call, countOp_emit_ret,
      countOp_emit_reti, free_code, setRegs_code, regGet_code, newExpEmit_code, newExpEmit_snd,
      newExpEmit_final, getConstantInt_code, getConstantFloat_code, getConstantAddress_code,
      backpatch_countOp, backpatchToHere_countOp, mkIns, emitLoad, fxAddSubEmitCore,
      fxMulDivEmitCore, fxLtGtEqEmitCore, ltGtEqInstr_ne_tail, ltGtEqInstr_ne_call,
      ltGtEqInstr_ne_ret, ltGtEqInstr_ne_reti, minMaxCmpOpcode_ne_tail, minMaxCmpOpcode_ne_call,
      minMaxCmpOpcode_ne_ret, minMaxCmpOpcode_ne_reti, countOp_append, countOp_cons, countOp_nil,
      countOp_single, emit_code]
    all_goals try (split_ifs <;> simp_all [callOpsPreserved, countOp_emit_tail, countOp_emit_call, countOp_emit_ret,
      countOp_emit_reti, free_code, setRegs_code, regGet_code, newExpEmit_code, newExpEmit_snd,
      newExpEmit_final, getConstantInt_code, getConstantFloat_code, getConstantAddress_code,
      backpatch_countOp, backpatchToHere_countOp, mkIns, ltGtEqInstr_ne_tail, ltGtEqInstr_ne_call,
      ltGtEqInstr_ne_ret, ltGtEqInstr_ne_reti, minMaxCmpOpcode_ne_tail, minMaxCmpOpcode_ne_call,
      minMaxCmpOpcode_ne_ret, minMaxCmpOpcode_ne_reti, countOp_append, countOp_cons, countOp_nil,
      countOp_single, emit_code])
    all_goals try (split <;> simp_all [callOpsPreserved, countOp_emit_tail, countOp_emit_call, countOp_emit_ret,
      countOp_emit_reti, free_code, setRegs_code, regGet_code, newExpEmit_code, newExpEmit_snd,
      newExpEmit_final, getConstantInt_code, getConstantFloat_code, getConstantAddress_code,
      backpatch_countOp, backpatchToHere_countOp, mkIns, ltGtEqInstr_ne_tail, ltGtEqInstr_ne_call,
      ltGtEqInstr_ne_ret, ltGtEqInstr_ne_reti, minMaxCmpOpcode_ne_tail, minMaxCmpOpcode_ne_call,
      minMaxCmpOpcode_ne_ret, minMaxCmpOpcode_ne_reti, countOp_append, countOp_cons, countOp_nil,
      countOp_single, emit_code])
    all_goals try omega
  · intros
    clear main
    try cases ‹AddOp›
    try cases ‹MulOp›
    all_goals simp_all only [emitExpr, minMaxEmitRest, Prod.ext_iff]
    all_goals try casesm* _ ∧ _
    all_goals try subst_vars
    all_goals try unfold_let at *
    all_goals simp_all [callOpsPreserved, countOp_emit_tail, countOp_emit_call, countOp_emit_ret,
      countOp_emit_reti, free_code, setRegs_code, regGet_code, newExpEmit_code, newExpEmit_snd,
      newExpEmit_final, getConstantInt_code, getConstantFloat_code, getConstantAddress_code,
      backpatch_countOp, backpatchToHere_countOp, mkIns, emitLoad, fxAddSubEmitCore,
      fxMulDivEmitCore, fxLtGtEqEmitCore, ltGtEqInstr_ne_tail, ltGtEqInstr_ne_call,
      ltGtEqInstr_ne_ret, ltGtEqInstr_ne_reti, minMaxCmpOpcode_ne_tail, minMaxCmpOpcode_ne_call,
      minMaxCmpOpcode_ne_ret, minMaxCmpOpcode_ne_reti, countOp_append, countOp_cons, countOp_nil,
      countOp_single, emit_code]
    all_goals try (split_ifs <;> simp_all [callOpsPreserved, countOp_emit_tail, countOp_emit_call, countOp_emit_ret,
      countOp_emit_reti, free_code, setRegs_code, regGet_code, newExpEmit_code, newExpEmit_snd,
      newExpEmit_final, getConstantInt_code, getConstantFloat_code, getConstantAddress_code,
      backpatch_countOp, backpatchToHere_countOp, mkIns, ltGtEqInstr_ne_tail, ltGtEqInstr_ne_call,
      ltGtEqInstr_ne_ret, ltGtEqInstr_ne_reti, minMaxCmpOpcode_ne_tail, minMaxCmpOpcode_ne_call,
      minMaxCmpOpcode_ne_ret, minMaxCmpOpcode_ne_reti, countOp_append, countOp_cons, countOp_nil,
      countOp_single, emit_code])
    all_goals try (split <;> simp_all [callOpsPreserved, countOp_emit_tail, countOp_emit_call, countOp_emit_ret,
      countOp_emit_reti, free_code, setRegs_code, regGet_code, newExpEmit_code, newExpEmit_snd,
      newExpEmit_final, getConstantInt_code, getConstantFloat_code, getConstantAddress_code,
      backpatch_countOp, backpatchToHere_countOp, mkIns, ltGtEqInstr_ne_tail, ltGtEqInstr_ne_call,
      ltGtEqInstr_ne_ret, ltGtEqInstr_ne_reti, minMaxCmpOpcode_ne_tail, minMaxCmpOpcode_ne_call,
      minMaxCmpOpcode_ne_ret, minMaxCmpOpcode_ne_reti, countOp_append, countOp_cons, countOp_nil,
      countOp_single, emit_code])
    all_goals try omega
  · intros
    clear main
    try cases ‹AddOp›
    try cases ‹MulOp›
    all_goals simp_all only [emitExpr, minMaxEmitRest, Prod.ext_iff]
    all_goals try casesm* _ ∧ _
    all_goals try subst_vars
    all_goals try unfold_let at *
    all_goals simp_all [callOpsPreserved, countOp_emit_tail, countOp_emit_call, countOp_emit_ret,
      countOp_emit_reti, free_code, setRegs_code, regGet_code, newExpEmit_code, newExpEmit_snd,
      newExpEmit_final, getConstantInt_code, getConstantFloat_code, getConstantAddress_code,
      backpatch_countOp, backpatchToHere_countOp, mkIns, emitLoad, fxAddSubEmitCore,
      fxMulDivEmitCore, fxLtGtEqEmitCore, ltGtEqInstr_ne_tail, ltGtEqInstr_ne_call,
      ltGtEqInstr_ne_ret, ltGtEqInstr_ne_reti, minMaxCmpOpcode_ne_tail, minMaxCmpOpcode_ne_call,
      minMaxCmpOpcode_ne_ret, minMaxCmpOpcode_ne_reti, countOp_append, countOp_cons, countOp_nil,
      countOp_single, emit_code]
    all_goals try (split_ifs <;> simp_all [callOpsPreserved, countOp_emit_tail, countOp_emit_call, countOp_emit_ret,
      countOp_emit_reti, free_code, setRegs_code, regGet_code, newExpEmit_code, newExpEmit_snd,
      newExpEmit_final, getConstantInt_code, getConstantFloat_code, getConstantAddress_code,
      backpatch_countOp, backpatchToHere_countOp, mkIns, ltGtEqInstr_ne_tail, ltGtEqInstr_ne_call,
      ltGtEqInstr_ne_ret, ltGtEqInstr_ne_reti, minMaxCmpOpcode_ne_tail, minMaxCmpOpcode_ne_call,
      minMaxCmpOpcode_ne_ret, minMaxCmpOpcode_ne_reti, countOp_append, countOp_cons, countOp_nil,
      countOp_single, emit_code])
    all_goals try (split <;> simp_all [callOpsPreserved, countOp_emit_tail, countOp_emit_call, countOp_emit_ret,
      countOp_emit_reti, free_code, setRegs_code, regGet_code, newExpEmit_code, newExpEmit_snd,
      newExpEmit_final, getConstantInt_code, getConstantFloat_code, getConstantAddress_code,
      backpatch_countOp, backpatchToHere_countOp, mkIns, ltGtEqInstr_ne_tail, ltGtEqInstr_ne_call,
      ltGtEqInstr_ne_ret, ltGtEqInstr_ne_reti, minMaxCmpOpcode_ne_tail, minMaxCmpOpcode_ne_call,
      minMaxCmpOpcode_ne_ret, minMaxCmpOpcode_ne_reti, countOp_append, countOp_cons, countOp_nil,
      countOp_single, emit_code])
    all_goals try omega
  · intros
    clear main
    try cases ‹AddOp›
    try cases ‹MulOp›
    all_goals simp_all only [emitExpr, minMaxEmitRest, Prod.ext_iff]
    all_goals try casesm* _ ∧ _
    all_goals try subst_vars
    all_goals try unfold_let at *
    all_goals simp_all [callOpsPreserved, countOp_emit_tail, countOp_emit_call, countOp_emit_ret,
      countOp_emit_reti, free_code, setRegs_code, regGet_code, newExpEmit_code, newExpEmit_snd,
      newExpEmit_final, getConstantInt_code, getConstantFloat_code, getConstantAddress_code,
      backpatch_countOp, backpatchToHere_countOp, mkIns, emitLoad, fxAddSubEmitCore,
      fxMulDivEmitCore, fxLtGtEqEmitCore, ltGtEqInstr_ne_tail, ltGtEqInstr_ne_call,
      ltGtEqInstr_ne_ret, ltGtEqInstr_ne_reti, minMaxCmpOpcode_ne_tail, minMaxCmpOpcode_ne_call,
      minMaxCmpOpcode_ne_ret, minMaxCmpOpcode_ne_reti, countOp_append, countOp_cons, countOp_nil,
      countOp_single, emit_code]
    all_goals try (split_ifs <;> simp_all [callOpsPreserved, countOp_emit_tail, countOp_emit_call, countOp_emit_ret,
      countOp_emit_reti, free_code, setRegs_code, regGet_code, newExpEmit_code, newExpEmit_snd,
      newExpEmit_final, getConstantInt_code, getConstantFloat_code, getConstantAddress_code,
      backpatch_countOp, backpatchToHere_countOp, mkIns, ltGtEqInstr_ne_tail, ltGtEqInstr_ne_call,
      ltGtEqInstr_ne_ret, ltGtEqInstr_ne_reti, minMaxCmpOpcode_ne_tail, minMaxCmpOpcode_ne_call,
      minMaxCmpOpcode_ne_ret, minMaxCmpOpcode_ne_reti, countOp_append, countOp_cons, countOp_nil,
      countOp_single, emit_code])
    all_goals try (split <;> simp_all [callOpsPreserved, countOp_emit_tail, countOp_emit_call, countOp_emit_ret,
      countOp_emit_reti, free_code, setRegs_code, regGet_code, newExpEmit_code, newExpEmit_snd,
      newExpEmit_final, getConstantInt_code, getConstantFloat_code, getConstantAddress_code,
      backpatch_countOp, backpatchToHere_countOp, mkIns, ltGtEqInstr_ne_tail, ltGtEqInstr_ne_call,
      ltGtEqInstr_ne_ret, ltGtEqInstr_ne_reti, minMaxCmpOpcode_ne_tail, minMaxCmpOpcode_ne_call,
      minMaxCmpOpcode_ne_ret, minMaxCmpOpcode_ne_reti, countOp_append, countOp_cons, countOp_nil,
      countOp_single, emit_code])
    all_goals try omega

/-! ### C1 -/

/-- C1: for `&&` with a constant side, `FxBinaryLogical::Resolve`
(codegen.cpp:2895-2923) folds with the boolean constants inverted:
`false && b` (with `b` non-constant) resolves to the constant `true`, and
`true && true` resolves to the constant `false` — contradicting the claim
that `false && right` folds to the constant `false` and that both-sides
constant folds to the constant result of the logical operation.  (The
claim's remaining cases do hold: `true && b` resolves to `b` alone, and
`||` folds correctly; see the second group of conjuncts.) -/
theorem fxBinaryLogical_andAnd_folds_inverted :
    (resolve (.fxBinaryLogical .andAnd (.fxConstant (boolVal false)) (.fxLocalVariable .tBool 0))
      = ([], some (.fxConstant (boolVal true)))
    ∧ resolve (.fxBinaryLogical .andAnd (.fxConstant (boolVal true)) (.fxConstant (boolVal true)))
      = ([], some (.fxConstant (boolVal false)))
    ∧ resolve (.fxBinaryLogical .andAnd (.fxConstant (boolVal true)) (.fxConstant (boolVal false)))
      = ([], some (.fxConstant (boolVal true))))
  ∧ (resolve (.fxBinaryLogical .andAnd (.fxConstant (boolVal true)) (.fxLocalVariable .tBool 0))
      = ([], some (.fxLocalVariable .tBool 0))
    ∧ resolve (.fxBinaryLogical .orOr (.fxConstant (boolVal false)) (.fxLocalVariable .tBool 0))
      = ([], some (.fxLocalVariable .tBool 0))
    ∧ resolve (.fxBinaryLogical .orOr (.fxConstant (boolVal true)) (.fxLocalVariable .tBool 0))
      = ([], some (.fxConstant (boolVal true)))
    ∧ resolve (.fxBinaryLogical .orOr (.fxConstant (boolVal false)) (.fxConstant (boolVal false)))
      = ([], some (.fxConstant (boolVal false)))) :=
  ⟨⟨rfl, rfl, rfl⟩, ⟨rfl, rfl, rfl, rfl⟩⟩

/-! ### C2 -/

/-- C2 counterexample: a division whose right operand is the compile-time
constant zero but whose left operand is not constant resolves
successfully, with no error — `FxMulDiv::Resolve` only checks the divisor
inside the both-operands-constant fold (codegen.cpp:2201-2246) — and its
emission then produces an `OP_DIV_RK` division instruction. -/
theorem fxMulDiv_nonconst_over_const_zero_resolves :
    resolve (.fxMulDiv .div .tVoid (.fxLocalVariable .tSInt32 0) (.fxConstant (intVal 0)))
      = ([], some (.fxMulDiv .div .tSInt32 (.fxLocalVariable .tSInt32 0) (.fxConstant (intVal 0))))
  ∧ countOp .OP_DIV_RK
      ((compileExpr (.fxMulDiv .div .tVoid (.fxLocalVariable .tSInt32 0) (.fxConstant (intVal 0)))
        { intRegs := { next := 1 } }).elim [] (fun p => p.1.code)) = 1 :=
  ⟨rfl, rfl⟩

/-- C2 as amended: for a division or modulo whose operands are BOTH
compile-time constants and whose right operand is zero (integer or
float), resolution reports the fatal "Division by 0" error, destroying
the node and propagating failure, and the expression is never emitted
(no division/modulo instruction is produced for it). -/
theorem fxMulDiv_const_div_by_const_zero_fatal (op : MulOp) (h : op ≠ .mul)
    (i : Int) (q : Rat) (bu : VMFunctionBuilder) :
    resolve (.fxMulDiv op .tVoid (.fxConstant (intVal i)) (.fxConstant (intVal 0)))
      = ([⟨.error, "Division by 0"⟩], none)
  ∧ resolve (.fxMulDiv op .tVoid (.fxConstant (floatVal q)) (.fxConstant (floatVal 0)))
      = ([⟨.error, "Division by 0"⟩], none)
  ∧ compileExpr (.fxMulDiv op .tVoid (.fxConstant (intVal i)) (.fxConstant (intVal 0))) bu
      = none
  ∧ compileExpr (.fxMulDiv op .tVoid (.fxConstant (floatVal q)) (.fxConstant (floatVal 0))) bu
      = none := by
  have h1 : resolve (.fxMulDiv op .tVoid (.fxConstant (intVal i)) (.fxConstant (intVal 0)))
      = ([⟨.error, "Division by 0"⟩], none) := by
    cases op with
    | mul => exact absurd rfl h
    | div => rfl
    | mod => rfl
  have h2 : resolve (.fxMulDiv op .tVoid (.fxConstant (floatVal q)) (.fxConstant (floatVal 0)))
      = ([⟨.error, "Division by 0"⟩], none) := by
    cases op with
    | mul => exact absurd rfl h
    | div => rfl
    | mod => rfl
  exact ⟨h1, h2, by simp [compileExpr, h1], by simp [compileExpr, h2]⟩

/-- Witness for `fxMulDiv_const_div_by_const_zero_fatal` at `5 / 0` and
`(7/2) % 0.0`. -/
theorem fxMulDiv_const_div_by_const_zero_fatal_witness :
    resolve (.fxMulDiv .div .tVoid (.fxConstant (intVal 5)) (.fxConstant (intVal 0)))
      = ([⟨.error, "Division by 0"⟩], none)
  ∧ compileExpr (.fxMulDiv .div .tVoid (.fxConstant (intVal 5)) (.fxConstant (intVal 0))) {}
      = none :=
  ⟨(fxMulDiv_const_div_by_const_zero_fatal .div (by decide) 5 (7/2) {}).1,
   (fxMulDiv_const_div_by_const_zero_fatal .div (by decide) 5 (7/2) {}).2.2.1⟩

/-! ### C3 -/

/-- C3: emitting `(a + b) <>= c` over three int locals (registers 0-2; the
allocator's high-water mark starts past them) acquires two registers
(the `+` result and the `<>=` result) but — even after the enclosing
statement frees the expression's result descriptor, as `FxSequence::Emit`
does — only one release has happened: `FxLtGtEq::Emit`
(codegen.cpp:2807-2836) never frees the operand register it consumed
(register 3, the `+` result), contradicting the claim that the emission
of `<>=` releases both operand registers and that acquire and release
counts balance by the end of the enclosing statement. -/
theorem fxLtGtEq_emit_leaks_operand_register :
    ltGtEqLeakExample.intRegs.getCount = 2
  ∧ ltGtEqLeakExample.intRegs.retCount = 1
  ∧ ltGtEqLeakExample.intRegs.freed = [4] :=
  ⟨rfl, rfl, rfl⟩

/-! ### C4 -/

/-- C4: in `FxLtGtEq::Resolve`'s mixed-class promotion
(codegen.cpp:2775-2787), the float-left/int-right case builds the float
cast around the LEFT operand (`right = new FxFloatCast(left)`) and
resolves `left` again instead of the new right child: `a <>= b` with `a` a
float local and `b` an int local resolves to `a <>= float(a)` — the left
operand appears twice, the right operand is dropped — contradicting the
claim that only the non-float operand is wrapped and each original
operand appears exactly once.  (The int-left/float-right case is correct,
second conjunct.) -/
theorem fxLtGtEq_mixed_promotion_duplicates_left :
    resolve (.fxLtGtEq .tSInt32 (.fxLocalVariable .tFloat64 0) (.fxLocalVariable .tSInt32 1))
      = ([], some (.fxLtGtEq .tFloat64 (.fxLocalVariable .tFloat64 0)
          (.fxFloatCast (.fxLocalVariable .tFloat64 0))))
  ∧ resolve (.fxLtGtEq .tSInt32 (.fxLocalVariable .tSInt32 0) (.fxLocalVariable .tFloat64 1))
      = ([], some (.fxLtGtEq .tFloat64 (.fxFloatCast (.fxLocalVariable .tSInt32 0))
          (.fxLocalVariable .tFloat64 1))) :=
  ⟨rfl, rfl⟩

/-! ### C5 -/

/-- C5: for storage held directly in a register — a local variable whose
address was requested, whose descriptor is the register itself with the
target flag SET (`FxLocalVariable::Emit`, codegen.cpp:4318-4323; note the
claim instead says the target flag is clear for this case) —
`FxPostIncrDecr::Emit` (codegen.cpp:1722-1756) never writes the
incremented value back: it emits only `ADD_RK scratch, var, 1` into a
fresh scratch register (first conjunct; register 0 is the variable,
register 1 the scratch) and returns the untouched variable register
(second conjunct), so the post-increment mutates nothing — while
`FxPreIncrDecr::Emit` (codegen.cpp:1636-1674) does mutate the register in
place with no load/store round trip (third conjunct), and for
memory-addressed storage (target flag clear) both perform the
load/modify/store sequence (remaining conjuncts). -/
theorem fxPostIncrDecr_target_register_never_written :
    (fxPostIncrDecrEmitCore { intRegs := { next := 1 }, intConsts := [0] } .tSInt32 .incr 0
        { regNum := 0, regType := REGT_INT, fixed := true, target := true }).1.code
      = [mkIns .OP_ADD_RK 1 0 1]
  ∧ (fxPostIncrDecrEmitCore { intRegs := { next := 1 }, intConsts := [0] } .tSInt32 .incr 0
        { regNum := 0, regType := REGT_INT, fixed := true, target := true }).2
      = { regNum := 0, regType := REGT_INT, fixed := true, target := true }
  ∧ (fxPreIncrDecrEmitCore { intRegs := { next := 1 }, intConsts := [0] } .tSInt32 .incr false 0
        { regNum := 0, regType := REGT_INT, fixed := true, target := true }).1.code
      = [mkIns .OP_ADD_RK 0 0 1]
  ∧ (fxPostIncrDecrEmitCore { intRegs := { next := 1 }, intConsts := [0] } .tSInt32 .incr 0
        { regNum := 0, regType := REGT_POINTER, fixed := true, target := false }).1.code
      = [mkIns .OP_LW 1 0 0, mkIns .OP_ADD_RK 2 1 1, mkIns .OP_SW 0 2 0]
  ∧ (fxPostIncrDecrEmitCore { intRegs := { next := 1 }, intConsts := [0] } .tSInt32 .incr 0
        { regNum := 0, regType := REGT_POINTER, fixed := true, target := false }).2.regNum = 1
  ∧ (fxPreIncrDecrEmitCore { intRegs := { next := 1 }, intConsts := [0] } .tSInt32 .incr false 0
        { regNum := 0, regType := REGT_POINTER, fixed := true, target := false }).1.code
      = [mkIns .OP_LW 1 0 0, mkIns .OP_ADD_RK 1 1 1, mkIns .OP_SW 0 1 0] :=
  ⟨rfl, rfl, rfl, rfl, rfl, rfl⟩

/-! ### C6 -/

/-- C6: `break`/`continue` outside any enclosing loop is a fatal failure
(`FxJumpStatement::Resolve`, codegen.cpp:6079-6094); inside nested loops a
jump is recorded on the innermost loop only (`ctx.Loop`, maintained by
`FxLoopStatement::Resolve`, codegen.cpp:5756-5763); and a loop's
resolution restores the previously innermost loop. -/
theorem jumpStatement_innermost_binding :
    (∀ (tok : JumpTok) (st : RState), st.loop = none →
        resolveStmt (.jumpStmt tok) st = (st, false))
  ∧ (∀ (i j : Nat) (tok : JumpTok) (st : RState),
        resolveStmt (.loopStmt i (.loopStmt j (.jumpStmt tok))) st
          = ({ st with jumps := st.jumps ++ [(j, tok)] }, true))
  ∧ (∀ (i : Nat) (body : FxStmt) (st : RState),
        ((resolveStmt (.loopStmt i body) st).1).loop = st.loop) := by
  refine ⟨?_, ?_, ?_⟩
  · intro tok st h
    simp [resolveStmt, h]
  · intro i j tok st
    cases st
    simp [resolveStmt]
  · intro i body st
    rcases h : resolveStmt body { st with loop := some i } with ⟨st2, ok⟩
    simp [resolveStmt, h]

/-- Witness for `jumpStatement_innermost_binding`: a `break` with no
enclosing loop fails; a `break` under two nested loops lands on the inner
loop's jump list and the context's innermost loop is restored. -/
theorem jumpStatement_innermost_binding_witness :
    resolveStmt (.jumpStmt .brk) { loop := none, jumps := [] }
      = ({ loop := none, jumps := [] }, false)
  ∧ resolveStmt (.loopStmt 1 (.loopStmt 2 (.jumpStmt .brk))) { loop := none, jumps := [] }
      = ({ loop := none, jumps := [(2, .brk)] }, true) :=
  ⟨jumpStatement_innermost_binding.1 .brk { loop := none, jumps := [] } rfl,
   jumpStatement_innermost_binding.2.1 1 2 .brk { loop := none, jumps := [] }⟩

/-! ### C7 -/

/-- C7: `FxIntCast::Resolve` (codegen.cpp:560-609) on a constant float
operand folds to the truncated integer constant, warns exactly when the
no-warn flag is unset and truncation changes the value, and always
continues (the result is a resolved node, never the `nullptr` of a fatal
error). -/
theorem fxIntCast_const_float_truncates (q : Rat) (nw : Bool) :
    resolve (.fxIntCast (.fxConstant (floatVal q)) nw) =
      ((if nw = false ∧ ((truncQ q : Rat) ≠ q) then
          [⟨.warning, "Truncation of floating point constant"⟩] else []),
        some (.fxConstant (intVal (truncQ q)))) := by
  by_cases hq : ((truncQ q : Rat) = q) <;> cases nw <;>
    simp [resolve, fxIntCastResolvePost, floatVal, intVal, FxExpr.valueType,
      FxExpr.isConstant, FxExpr.getValue, ExpVal.GetInt, ExpVal.GetFloat,
      PType.regType, REGT_INT, REGT_FLOAT, msgWarning, hq, bind, pure]

/-! ### C8 -/

/-- C8: variant selection of the binary emitters.  With exactly one
constant operand, `FxAddSub::Emit` (codegen.cpp:2115-2170),
`FxMulDiv::Emit` (codegen.cpp:2258-2316) and `FxCompareEq::Emit`
(codegen.cpp:2560-2596) emit the register-constant (`_RK` / `_K`) variant
for `+`, `*` and the equality comparisons with the constant operand in the
second operand slot, whichever source side was constant (first group:
constant left gets swapped; second group: constant right stays).  For `-`,
`/` and `%` the emitter keeps the operand order and selects the `_KR`,
`_RK` or `_RR` variant according to which side is constant (third group,
stated for every konst combination). -/
theorem binary_emit_constant_operand_selection :
    (∀ (bu : VMFunctionBuilder) (vtReg : Nat) (oper : EqOp) (op1 op2 : ExpEmit),
      op1.konst = true → op2.konst = false →
      (fxAddSubEmitCore bu .add vtReg op1 op2).1.code =
        bu.code ++ [mkIns (if vtReg = REGT_FLOAT then .OP_ADDF_RK else .OP_ADD_RK)
          ((fxAddSubEmitCore bu .add vtReg op1 op2).2.regNum) op2.regNum op1.regNum] ∧
      (fxMulDivEmitCore bu .mul vtReg op1 op2).1.code =
        bu.code ++ [mkIns (if vtReg = REGT_FLOAT then .OP_MULF_RK else .OP_MUL_RK)
          ((fxMulDivEmitCore bu .mul vtReg op1 op2).2.regNum) op2.regNum op1.regNum] ∧
      (fxCompareEqEmitCore bu oper op1 op2).1.code =
        bu.code ++ [mkIns .OP_LI ((fxCompareEqEmitCore bu oper op1 op2).2.regNum) 0 0,
          mkIns (if op2.regType = REGT_INT then .OP_EQ_K
            else if op2.regType = REGT_FLOAT then .OP_EQF_K else .OP_EQA_K)
            (eqCondParam oper) op2.regNum op1.regNum,
          mkIns .OP_JMP 1 0 0,
          mkIns .OP_LI ((fxCompareEqEmitCore bu oper op1 op2).2.regNum) 1 0]) ∧
    (∀ (bu : VMFunctionBuilder) (vtReg : Nat) (oper : EqOp) (op1 op2 : ExpEmit),
      op1.konst = false → op2.konst = true →
      (fxAddSubEmitCore bu .add vtReg op1 op2).1.code =
        bu.code ++ [mkIns (if vtReg = REGT_FLOAT then .OP_ADDF_RK else .OP_ADD_RK)
          ((fxAddSubEmitCore bu .add vtReg op1 op2).2.regNum) op1.regNum op2.regNum] ∧
      (fxMulDivEmitCore bu .mul vtReg op1 op2).1.code =
        bu.code ++ [mkIns (if vtReg = REGT_FLOAT then .OP_MULF_RK else .OP_MUL_RK)
          ((fxMulDivEmitCore bu .mul vtReg op1 op2).2.regNum) op1.regNum op2.regNum] ∧
      (fxCompareEqEmitCore bu oper op1 op2).1.code =
        bu.code ++ [mkIns .OP_LI ((fxCompareEqEmitCore bu oper op1 op2).2.regNum) 0 0,
          mkIns (if op1.regType = REGT_INT then .OP_EQ_K
            else if op1.regType = REGT_FLOAT then .OP_EQF_K else .OP_EQA_K)
            (eqCondParam oper) op1.regNum op2.regNum,
          mkIns .OP_JMP 1 0 0,
          mkIns .OP_LI ((fxCompareEqEmitCore bu oper op1 op2).2.regNum) 1 0]) ∧
    (∀ (bu : VMFunctionBuilder) (vtReg : Nat) (op1 op2 : ExpEmit),
      (fxAddSubEmitCore bu .sub vtReg op1 op2).1.code =
        bu.code ++ [mkIns
          (if vtReg = REGT_FLOAT then
            (if op1.konst then .OP_SUBF_KR else if op2.konst then .OP_SUBF_RK else .OP_SUBF_RR)
          else
            (if op1.konst then .OP_SUB_KR else if op2.konst then .OP_SUB_RK else .OP_SUB_RR))
          ((fxAddSubEmitCore bu .sub vtReg op1 op2).2.regNum) op1.regNum op2.regNum] ∧
      (fxMulDivEmitCore bu .div vtReg op1 op2).1.code =
        bu.code ++ [mkIns
          (if vtReg = REGT_FLOAT then
            (if op1.konst then .OP_DIVF_KR else if op2.konst then .OP_DIVF_RK else .OP_DIVF_RR)
          else
            (if op1.konst then .OP_DIV_KR else if op2.konst then .OP_DIV_RK else .OP_DIV_RR))
          ((fxMulDivEmitCore bu .div vtReg op1 op2).2.regNum) op1.regNum op2.regNum] ∧
      (fxMulDivEmitCore bu .mod vtReg op1 op2).1.code =
        bu.code ++ [mkIns
          (if vtReg = REGT_FLOAT then
            (if op1.konst then .OP_MODF_KR else if op2.konst then .OP_MODF_RK else .OP_MODF_RR)
          else
            (if op1.konst then .OP_MOD_KR else if op2.konst then .OP_MOD_RK else .OP_MOD_RR))
          ((fxMulDivEmitCore bu .mod vtReg op1 op2).2.regNum) op1.regNum op2.regNum]) ∧
    (∀ (op : AddOp) (i j : Int),
      resolve (.fxAddSub op .tVoid (.fxConstant (intVal i)) (.fxConstant (intVal j))) =
        ([], some (.fxConstant (intVal (match op with | .add => i + j | .sub => i - j))))) := by
  refine ⟨?_, ?_, ?_, ?_⟩
  · intro bu vtReg oper op1 op2 h1 h2
    refine ⟨?_, ?_, ?_⟩ <;>
      simp [fxAddSubEmitCore, fxMulDivEmitCore, fxCompareEqEmitCore, h1, h2,
        newExpEmit_code, newExpEmit_snd, free_code, emit_code, regGet_code] <;>
      split_ifs <;>
      simp [newExpEmit_code, newExpEmit_snd, free_code, emit_code, regGet_code]
  · intro bu vtReg oper op1 op2 h1 h2
    refine ⟨?_, ?_, ?_⟩ <;>
      simp [fxAddSubEmitCore, fxMulDivEmitCore, fxCompareEqEmitCore, h1, h2,
        newExpEmit_code, newExpEmit_snd, free_code, emit_code, regGet_code] <;>
      split_ifs <;>
      simp [newExpEmit_code, newExpEmit_snd, free_code, emit_code, regGet_code]
  · intro bu vtReg op1 op2
    refine ⟨?_, ?_, ?_⟩ <;>
      simp [fxAddSubEmitCore, fxMulDivEmitCore,
        newExpEmit_code, newExpEmit_snd, free_code, emit_code, regGet_code] <;>
      split_ifs <;>
      simp [newExpEmit_code, newExpEmit_snd, free_code, emit_code, regGet_code]
  · intro op i j
    cases op <;>
      simp [resolve, resolve2, resolveLRType, promote, intVal, FxExpr.valueType,
        FxExpr.isConstant, FxExpr.getValue, ExpVal.GetInt, PType.regType,
        PType.isNumeric, FxExpr.isNumeric, REGT_INT, REGT_FLOAT, REGT_NIL, bind, pure]

/-- Witness for `binary_emit_constant_operand_selection`: an addition with
the constant operand on the left, over a builder with two occupied integer
registers, emits `OP_ADD_RK 1 1 0` — the nonconstant register 1 first (it
is freed and then reused as the destination), the constant index 0
second. -/
theorem binary_emit_constant_operand_selection_witness :
    (fxAddSubEmitCore { intRegs := { next := 2 } } .add REGT_INT
        { regNum := 0, regType := REGT_INT, konst := true }
        { regNum := 1, regType := REGT_INT }).1.code =
      [mkIns .OP_ADD_RK 1 1 0] := by
  have h := (binary_emit_constant_operand_selection.1
    { intRegs := { next := 2 } } REGT_INT .eq
    { regNum := 0, regType := REGT_INT, konst := true }
    { regNum := 1, regType := REGT_INT } rfl rfl).1
  rw [h]
  decide

/-! ### C9 -/

theorem callOpsPreserved_refl (c : List Instr) : callOpsPreserved c c :=
  ⟨rfl, rfl, rfl, rfl⟩

theorem callOpsPreserved_trans {a b c : List Instr}
    (h1 : callOpsPreserved a b) (h2 : callOpsPreserved b c) :
    callOpsPreserved a c := by
  obtain ⟨x1, x2, x3, x4⟩ := h1
  obtain ⟨y1, y2, y3, y4⟩ := h2
  exact ⟨y1.trans x1, y2.trans x2, y3.trans x3, y4.trans x4⟩

theorem emitParameter_callops (bu : VMFunctionBuilder) (e : FxExpr) :
    callOpsPreserved bu.code (emitParameter bu e).code := by
  have h := emit_preserves_callops e bu
  unfold emitParameter
  rcases hw : emitExpr e bu with ⟨bu2, whr⟩
  rw [hw] at h
  refine callOpsPreserved_trans h.1 ?_
  simp only []
  split_ifs <;>
    simp [callOpsPreserved, countOp_emit_tail, countOp_emit_call, countOp_emit_ret,
      countOp_emit_reti, free_code, mkIns]

theorem emitParameter_countOp_tail (bu : VMFunctionBuilder) (e : FxExpr) :
    countOp .OP_TAIL_K (emitParameter bu e).code = countOp .OP_TAIL_K bu.code :=
  (emitParameter_callops bu e).1

theorem emitParameter_countOp_call (bu : VMFunctionBuilder) (e : FxExpr) :
    countOp .OP_CALL_K (emitParameter bu e).code = countOp .OP_CALL_K bu.code :=
  (emitParameter_callops bu e).2.1

theorem emitParameter_countOp_ret (bu : VMFunctionBuilder) (e : FxExpr) :
    countOp .OP_RET (emitParameter bu e).code = countOp .OP_RET bu.code :=
  (emitParameter_callops bu e).2.2.1

theorem emitParameter_countOp_reti (bu : VMFunctionBuilder) (e : FxExpr) :
    countOp .OP_RETI (emitParameter bu e).code = countOp .OP_RETI bu.code :=
  (emitParameter_callops bu e).2.2.2

theorem foldl_emitParameter_callops (args : List FxExpr) (bu : VMFunctionBuilder) :
    callOpsPreserved bu.code (args.foldl emitParameter bu).code := by
  induction args generalizing bu with
  | nil => exact callOpsPreserved_refl _
  | cons a rest ih =>
    exact callOpsPreserved_trans (emitParameter_callops bu a) (ih (emitParameter bu a))

/-- C9 counterexample: a return statement whose value is exactly a resolved
call of the internal cast kludge `__decorate_internal_int__` with the
single constant argument `5` emits no tail-call instruction at all: the
emission is the single immediate-return `OP_RETI` (codegen.cpp:5384-5389
via `CheckEmitCast`), contradicting the claim that every sole-value call
return produces a single tail-call instruction. -/
theorem returnOfCall_kludge_emits_reti_not_tail :
    (fxReturnStatementEmit {} (fxReturnStatementResolve (.callValue
        { func := { symbolName := .decorateInternalInt },
          args := [.fxConstant (intVal 5)] }))).1.code =
      [mkIns .OP_RETI RET_FINAL 5 0] ∧
    countOp .OP_TAIL_K
      (fxReturnStatementEmit {} (fxReturnStatementResolve (.callValue
        { func := { symbolName := .decorateInternalInt },
          args := [.fxConstant (intVal 5)] }))).1.code = 0 ∧
    (fxReturnStatementEmit {} (fxReturnStatementResolve (.callValue
        { func := { symbolName := .decorateInternalInt },
          args := [.fxConstant (intVal 5)] }))).2.final = true := by
  exact ⟨rfl, rfl, rfl⟩

/-- C9 (amended): return-of-call emission is a tail call — except for the
internal decorate cast kludge functions with a single argument (see the
counterexample).  For a return statement whose value is exactly a resolved
call of a non-kludge function, `FxReturnStatement::Emit`
(codegen.cpp:6139-6170) with `FxVMFunctionCall::ReturnProto` having set
`EmitTail` emits exactly one `OP_TAIL_K`, no `OP_CALL_K` and no separate
return instruction (`OP_RET`/`OP_RETI` counts unchanged), and the call's
descriptor is marked final; a return of any other value whose emission
yields a non-final descriptor emits the value followed by exactly one
`OP_RET` return instruction and no call/tail/immediate-return
instruction.  The non-final condition on the second half is essential:
the program's `FxRandom`, `FxRandom2`, `FxActionSpecialCall` and
`FxRuntimeStateIndex` nodes override `ReturnProto` to set their own
`EmitTail` and emit a tail call with a final descriptor themselves, and
`FxReturnStatement::Emit` then appends no `OP_RET` (the `!out.Final`
guard, codegen.cpp:6151). -/
theorem returnOfCall_emits_single_tail_call (bu : VMFunctionBuilder) (c : VMCall)
    (hk : c.func.symbolName.isCastKludge = false) :
    (countOp .OP_TAIL_K
        (fxReturnStatementEmit bu (fxReturnStatementResolve (.callValue c))).1.code =
      countOp .OP_TAIL_K bu.code + 1) ∧
    (countOp .OP_CALL_K
        (fxReturnStatementEmit bu (fxReturnStatementResolve (.callValue c))).1.code =
      countOp .OP_CALL_K bu.code) ∧
    (countOp .OP_RET
        (fxReturnStatementEmit bu (fxReturnStatementResolve (.callValue c))).1.code =
      countOp .OP_RET bu.code) ∧
    (countOp .OP_RETI
        (fxReturnStatementEmit bu (fxReturnStatementResolve (.callValue c))).1.code =
      countOp .OP_RETI bu.code) ∧
    (fxReturnStatementEmit bu (fxReturnStatementResolve (.callValue c))).2.final = true ∧
    (∀ (e : FxExpr), (emitExpr e bu).2.final = false →
      (countOp .OP_RET
          (fxReturnStatementEmit bu (fxReturnStatementResolve (.exprValue e))).1.code =
        countOp .OP_RET (emitExpr e bu).1.code + 1) ∧
      (countOp .OP_TAIL_K
          (fxReturnStatementEmit bu (fxReturnStatementResolve (.exprValue e))).1.code =
        countOp .OP_TAIL_K bu.code) ∧
      (countOp .OP_CALL_K
          (fxReturnStatementEmit bu (fxReturnStatementResolve (.exprValue e))).1.code =
        countOp .OP_CALL_K bu.code) ∧
      (countOp .OP_RETI
          (fxReturnStatementEmit bu (fxReturnStatementResolve (.exprValue e))).1.code =
        countOp .OP_RETI bu.code) ∧
      (fxReturnStatementEmit bu (fxReturnStatementResolve (.exprValue e))).2.final = true) := by
  have hexpr : ∀ (e : FxExpr) (b : VMFunctionBuilder),
      (countOp .OP_TAIL_K (emitExpr e b).1.code = countOp .OP_TAIL_K b.code) ∧
      (countOp .OP_CALL_K (emitExpr e b).1.code = countOp .OP_CALL_K b.code) ∧
      (countOp .OP_RET (emitExpr e b).1.code = countOp .OP_RET b.code) ∧
      (countOp .OP_RETI (emitExpr e b).1.code = countOp .OP_RETI b.code) ∧
      (emitExpr e b).2.final = false := by
    intro e b
    obtain ⟨⟨h1, h2, h3, h4⟩, h5⟩ := emit_preserves_callops e b
    exact ⟨h1, h2, h3, h4, h5⟩
  have hfold : ∀ (l : List FxExpr) (b : VMFunctionBuilder),
      (countOp .OP_TAIL_K (l.foldl emitParameter b).code = countOp .OP_TAIL_K b.code) ∧
      (countOp .OP_CALL_K (l.foldl emitParameter b).code = countOp .OP_CALL_K b.code) ∧
      (countOp .OP_RET (l.foldl emitParameter b).code = countOp .OP_RET b.code) ∧
      (countOp .OP_RETI (l.foldl emitParameter b).code = countOp .OP_RETI b.code) := by
    intro l b
    exact foldl_emitParameter_callops l b
  obtain ⟨f, args, selfE, tail⟩ := c
  simp only [fxReturnStatementResolve, vmCallReturnProto] at hk ⊢
  refine ⟨?_, ?_, ?_, ?_, ?_, ?_⟩
  case _ =>
    rcases args with _ | ⟨a, _ | ⟨b2, rest⟩⟩ <;> rcases selfE with _ | s <;>
      simp [fxReturnStatementEmit, vmCallEmit, hk, hexpr, hfold,
        emitParameter_countOp_tail, emitParameter_countOp_call,
        emitParameter_countOp_ret, emitParameter_countOp_reti,
        getConstantAddress_code, countOp_emit_tail, countOp_emit_call,
        countOp_emit_ret, countOp_emit_reti, emit_code, countOp_append,
        countOp_single, countOp_cons, countOp_nil, mkIns] <;>
      split_ifs <;>
      simp [hexpr, hfold, emitParameter_countOp_tail, emitParameter_countOp_call,
        emitParameter_countOp_ret, emitParameter_countOp_reti,
        getConstantAddress_code, countOp_emit_tail,
        countOp_emit_call, countOp_emit_ret, countOp_emit_reti, emit_code,
        countOp_append, countOp_single, countOp_cons, countOp_nil, mkIns] <;>
      omega
  case _ =>
    rcases args with _ | ⟨a, _ | ⟨b2, rest⟩⟩ <;> rcases selfE with _ | s <;>
      simp [fxReturnStatementEmit, vmCallEmit, hk, hexpr, hfold,
        emitParameter_countOp_tail, emitParameter_countOp_call,
        emitParameter_countOp_ret, emitParameter_countOp_reti,
        getConstantAddress_code, countOp_emit_tail, countOp_emit_call,
        countOp_emit_ret, countOp_emit_reti, emit_code, countOp_append,
        countOp_single, countOp_cons, countOp_nil, mkIns] <;>
      split_ifs <;>
      simp [hexpr, hfold, emitParameter_countOp_tail, emitParameter_countOp_call,
        emitParameter_countOp_ret, emitParameter_countOp_reti,
        getConstantAddress_code, countOp_emit_tail,
        countOp_emit_call, countOp_emit_ret, countOp_emit_reti, emit_code,
        countOp_append, countOp_single, countOp_cons, countOp_nil, mkIns] <;>
      omega
  case _ =>
    rcases args with _ | ⟨a, _ | ⟨b2, rest⟩⟩ <;> rcases selfE with _ | s <;>
      simp [fxReturnStatementEmit, vmCallEmit, hk, hexpr, hfold,
        emitParameter_countOp_tail, emitParameter_countOp_call,
        emitParameter_countOp_ret, emitParameter_countOp_reti,
        getConstantAddress_code, countOp_emit_tail, countOp_emit_call,
        countOp_emit_ret, countOp_emit_reti, emit_code, countOp_append,
        countOp_single, countOp_cons, countOp_nil, mkIns] <;>
      split_ifs <;>
      simp [hexpr, hfold, emitParameter_countOp_tail, emitParameter_countOp_call,
        emitParameter_countOp_ret, emitParameter_countOp_reti,
        getConstantAddress_code, countOp_emit_tail,
        countOp_emit_call, countOp_emit_ret, countOp_emit_reti, emit_code,
        countOp_append, countOp_single, countOp_cons, countOp_nil, mkIns] <;>
      omega
  case _ =>
    rcases args with _ | ⟨a, _ | ⟨b2, rest⟩⟩ <;> rcases selfE with _ | s <;>
      simp [fxReturnStatementEmit, vmCallEmit, hk, hexpr, hfold,
        emitParameter_countOp_tail, emitParameter_countOp_call,
        emitParameter_countOp_ret, emitParameter_countOp_reti,
        getConstantAddress_code, countOp_emit_tail, countOp_emit_call,
        countOp_emit_ret, countOp_emit_reti, emit_code, countOp_append,
        countOp_single, countOp_cons, countOp_nil, mkIns] <;>
      split_ifs <;>
      simp [hexpr, hfold, emitParameter_countOp_tail, emitParameter_countOp_call,
        emitParameter_countOp_ret, emitParameter_countOp_reti,
        getConstantAddress_code, countOp_emit_tail,
        countOp_emit_call, countOp_emit_ret, countOp_emit_reti, emit_code,
        countOp_append, countOp_single, countOp_cons, countOp_nil, mkIns] <;>
      omega
  case _ =>
    rcases args with _ | ⟨a, _ | ⟨b2, rest⟩⟩ <;> rcases selfE with _ | s <;>
      simp [fxReturnStatementEmit, vmCallEmit, hk, hexpr, hfold,
        emitParameter_countOp_tail, emitParameter_countOp_call,
        emitParameter_countOp_ret, emitParameter_countOp_reti,
        getConstantAddress_code, countOp_emit_tail, countOp_emit_call,
        countOp_emit_ret, countOp_emit_reti, emit_code, countOp_append,
        countOp_single, countOp_cons, countOp_nil, mkIns] <;>
      split_ifs <;>
      simp [hexpr, hfold, emitParameter_countOp_tail, emitParameter_countOp_call,
        emitParameter_countOp_ret, emitParameter_countOp_reti,
        getConstantAddress_code, countOp_emit_tail,
        countOp_emit_call, countOp_emit_ret, countOp_emit_reti, emit_code,
        countOp_append, countOp_single, countOp_cons, countOp_nil, mkIns] <;>
      omega
  case _ =>
    intro e hfin
    clear hfin
    rcases hw : emitExpr e bu with ⟨bu2, dst⟩
    have he := hexpr e bu
    rw [hw] at he
    obtain ⟨h1, h2, h3, h4, h5⟩ := he
    refine ⟨?_, ?_, ?_, ?_, ?_⟩ <;>
      simp [fxReturnStatementEmit, hw, h1, h2, h3, h4, h5, countOp_emit_tail,
        countOp_emit_call, countOp_emit_ret, countOp_emit_reti, emit_code,
        countOp_append, countOp_single, countOp_cons, mkIns] <;>
      split_ifs <;>
      simp [h1, h2, h3, h4, countOp_emit_tail, countOp_emit_call,
        countOp_emit_ret, countOp_emit_reti, emit_code, countOp_append,
        countOp_single, countOp_cons, countOp_nil, mkIns] <;>
      omega

/-- Witness for `returnOfCall_emits_single_tail_call`: returning a call of
an ordinary (non-kludge) void function with no arguments from a fresh
builder emits exactly one tail-call instruction. -/
theorem returnOfCall_emits_single_tail_call_witness :
    countOp .OP_TAIL_K
      (fxReturnStatementEmit {} (fxReturnStatementResolve (.callValue
        { func := { symbolName := .plain "f" } }))).1.code = 1 := by
  have h := (returnOfCall_emits_single_tail_call {}
    { func := { symbolName := .plain "f" } } rfl).1
  simpa [countOp] using h

/-! ### C10 -/

/-- C10: the `NAME_Clamp` case of `FxFunctionCall::Resolve`
(codegen.cpp:4839-4851) replaces `clamp(x, lo, hi)` by a single min node
built from the original three-argument list, `min(x, lo, hi)`; the
intermediate max node `max(x, lo)` built into the scratch array `pass`
is discarded — it occurs in the lowered expression only as often as it
already occurred inside the original arguments themselves (in particular,
the lowering adds no occurrence of it). -/
theorem clamp_lowering_is_min_of_three (a0 a1 a2 : FxExpr) :
    clampLowering a0 a1 a2 = .fxMinMax .nameMin .tVoid [a0, a1, a2] ∧
    countOcc (clampIntermediateMax a0 a1) (clampLowering a0 a1 a2) =
      countOcc (clampIntermediateMax a0 a1) a0 +
      countOcc (clampIntermediateMax a0 a1) a1 +
      countOcc (clampIntermediateMax a0 a1) a2 := by
  refine ⟨rfl, ?_⟩
  simp [clampLowering, clampIntermediateMax, countOcc, countOccList, FxExpr.beq]
  omega
